import Mathlib

/-!
# Incast client (`src/client/incast-client.c`): shallow embedding

The request-generation engine of the traffic generator: the planner
(`set_req_variables`), the dispatcher (`run_requests`, `run_request`, `run_flow`),
the listener (`listen_connection`) and the shutdown walk (`exit_connections`).

Conventions of the embedding.

* A C `int` is an `Int`; every arithmetic result that is stored in an `int` goes through
  `wrapI32` (two's complement, 32 bits).  An `unsigned int` is a `Nat` below `2^32`;
  conversions go through `toU32`, increments and decrements are taken modulo `2^32`.
* A `struct Conn_Node*` is a pair (server index, position in that server's list); the
  linked list `head .. tail` of a `struct Conn_List` is the list `nodes`.
* `conn.c` is not part of the sources: results of `Insert_Conn_List` and
  `Search_N_Conn_List` are supplied by the environment (`ReqEnv`), so every statement
  about `run_request` holds for every behaviour of these two functions.
* `gettimeofday`, `rand`, socket reads and the samplers of `common.c` are environment
  inputs as well.
* Threads: `run_request` runs its `run_flow` threads in index order; iterations of the
  listener threads are separate events (`ListenEv`) placed between requests.
-/

namespace IncastClient

/-! ## Machine integers -/

/-- Conversion of a C `int` value to `unsigned int`. -/
def toU32 (x : Int) : Nat := (x % 4294967296).toNat

/-- The value an `int` holds after a 32-bit two's-complement wrap. -/
def wrapI32 (x : Int) : Int := (x + 2147483648) % 4294967296 - 2147483648

/-- The macro `max(a,b)` when `a` is `unsigned int` and `b` is the `int` constant `0`:
the comparison and the result are unsigned. -/
def maxU32Zero (a : Nat) : Nat := if a > 0 then a else 0

/-! ## Data model -/

/-- A C `struct timeval`. -/
structure timeval where
  tv_sec : Int
  tv_usec : Int
deriving DecidableEq, Repr

/-- The fields of `struct Conn_Node` that the client reads and writes. -/
structure Conn_Node where
  connected : Bool
  busy : Bool
deriving DecidableEq, Repr

/-- The fields of `struct Conn_List` that the client reads and writes; `nodes` is the
linked list from `head` to `tail`. -/
structure Conn_List where
  nodes : List Conn_Node
  len : Nat
  available_len : Nat
  flow_finished : Nat
deriving DecidableEq, Repr

instance : Inhabited Conn_Node := ⟨⟨false, false⟩⟩

instance : Inhabited Conn_List := ⟨⟨[], 0, 0, 0⟩⟩

/-- A C `struct Flow`; the `node` pointer is (`server`, `node`). -/
structure Flow where
  server : Nat
  node : Nat
  flow_id : Nat
  flow_size : Nat
  flow_tos : Nat
  flow_rate : Nat
deriving DecidableEq, Repr

/-- One call of `write_exact` in `run_flow`: the node whose socket is written and the
16-byte buffer handed over. -/
structure Sent where
  server : Nat
  node : Nat
  buf : List Nat
deriving DecidableEq, Repr

/-- The globals that `read_config` and `set_req_variables` fill and that stay fixed
during the run. -/
structure Plan where
  num_server : Nat
  req_total_num : Int
  flow_total_num : Int
  req_size : List Int
  req_fanout : List Int
  req_dscp : List Int
  req_rate : List Int
  req_sleep_us : List Int
  req_server_flow_count : List (List Int)
  server_flow_count : List Int
  flow_req_id : List Int
deriving DecidableEq, Repr

/-- The globals that change during the run. -/
structure Client where
  connection_lists : List Conn_List
  global_flow_id : Int
  req_start_time : List timeval
  req_stop_time : List timeval
  flow_start_time : List timeval
  flow_stop_time : List timeval
deriving DecidableEq, Repr

/-- Read `connection_lists[s]`. -/
def Client.list (c : Client) (s : Nat) : Conn_List := c.connection_lists.getD s default

/-- Read the node at position `j` of `connection_lists[s]`. -/
def Client.node (c : Client) (s j : Nat) : Conn_Node := (c.list s).nodes.getD j default

/-- The test `connected && !busy` on a node. -/
def Conn_Node.idle (n : Conn_Node) : Bool := n.connected && !n.busy

/-- Number of nodes with `connected && !busy`. -/
def idle_count (l : Conn_List) : Nat := l.nodes.countP Conn_Node.idle

/-- Number of nodes with `connected`. -/
def connected_count (l : Conn_List) : Nat := l.nodes.countP (fun n => n.connected)

/-- Number of nodes with `connected && busy`. -/
def busy_count (l : Conn_List) : Nat := l.nodes.countP (fun n => n.connected && n.busy)

/-- Modelled from the spec: `Init_Conn_List` followed by a successful
`Insert_Conn_List(list, n)` of `conn.c` (not in the sources): `n` nodes, each
`connected=true`, `busy=false`, `len = available_len = n`, `flow_finished = 0`. -/
def fresh_pool (n : Nat) : Conn_List :=
  { nodes := List.replicate n ⟨true, false⟩, len := n, available_len := n, flow_finished := 0 }

/-! ## run_flow -/

/-- The four bytes `memcpy` copies from an `unsigned int` on a little-endian host. -/
def u32_bytes (x : Nat) : List Nat :=
  [x % 256, x / 256 % 256, x / 65536 % 256, x / 16777216 % 256]

/-- The `unsigned int` that `memcpy(&w, buf + off, 4)` yields on a little-endian host. -/
def u32_at (buf : List Nat) (off : Nat) : Nat :=
  buf.getD off 0 + 256 * buf.getD (off + 1) 0 + 65536 * buf.getD (off + 2) 0
    + 16777216 * buf.getD (off + 3) 0

/-- The buffer `run_flow` fills: four words at offsets 0, 4, 8, 12. -/
def fill_meta_data (f : Flow) : List Nat :=
  u32_bytes f.flow_id ++ u32_bytes f.flow_size ++ u32_bytes f.flow_tos ++ u32_bytes f.flow_rate

/-- The statements `node->busy = true; node->list->available_len--;` of `run_flow`. -/
def Conn_List.lease (l : Conn_List) (j : Nat) : Conn_List :=
  { l with
    nodes := l.nodes.modify (fun n => { n with busy := true }) j
    available_len := (l.available_len + 4294967295) % 4294967296 }

/-- The function `run_flow`: fill the buffer, stamp `flow_start_time[flow_id - 1]` when
`flow_id` is not 0, mark the node busy, decrement `available_len`, write the buffer.
The result of `write_exact` only decides whether an error line is printed. -/
def run_flow (c : Client) (f : Flow) (now : timeval) : Client × Sent :=
  let buf := fill_meta_data f
  let c1 : Client :=
    if f.flow_id ≠ 0 then { c with flow_start_time := c.flow_start_time.set (f.flow_id - 1) now }
    else c
  let c2 : Client :=
    { c1 with connection_lists := c1.connection_lists.modify (fun l => l.lease f.node) f.server }
  (c2, { server := f.server, node := f.node, buf := buf })

/-! ## listen_connection -/

/-- What the two `read_exact` calls of one iteration of the listener loop return. -/
inductive ReadResult where
  | short_meta
  | short_payload (read_buf : List Nat)
  | ok (read_buf : List Nat)
deriving DecidableEq, Repr

/-- The statements after the loop of `listen_connection`:
`close(node->sockfd); node->connected = false; node->busy = false;`. -/
def Conn_List.retire (l : Conn_List) (j : Nat) : Conn_List :=
  { l with nodes := l.nodes.modify (fun _ => { connected := false, busy := false }) j }

/-- The statements `node->busy = false;` and, when `flow_id != 0`,
`flow_finished++; available_len++;` of `listen_connection`. -/
def Conn_List.release (l : Conn_List) (j : Nat) (flow_id : Nat) : Conn_List :=
  { l with
    nodes := l.nodes.modify (fun n => { n with busy := false }) j
    flow_finished := if flow_id ≠ 0 then (l.flow_finished + 1) % 4294967296 else l.flow_finished
    available_len := if flow_id ≠ 0 then (l.available_len + 1) % 4294967296 else l.available_len }

/-- The write `gettimeofday(&req_stop_time[flow_req_id[flow_id - 1]], NULL)`. -/
def stamp_req_stop (plan : Plan) (stop : List timeval) (flow_id : Nat) (now : timeval) :
    List timeval :=
  match plan.flow_req_id[flow_id - 1]? with
  | some r => if 0 ≤ r then stop.set r.toNat now else stop
  | none => stop

/-- One iteration of the loop of `listen_connection` on node (`s`, `j`), with the exit
statements when the iteration leaves the loop.  `t_flow` and `t_req` are the results of
the two `gettimeofday` calls. -/
def listen_connection (plan : Plan) (c : Client) (s j : Nat) (r : ReadResult)
    (t_flow t_req : timeval) : Client :=
  match r with
  | ReadResult.short_meta =>
    { c with connection_lists := c.connection_lists.modify (fun l => l.retire j) s }
  | ReadResult.short_payload _ =>
    { c with connection_lists := c.connection_lists.modify (fun l => l.retire j) s }
  | ReadResult.ok read_buf =>
    let flow_id := u32_at read_buf 0
    let c1 : Client :=
      { c with connection_lists := c.connection_lists.modify (fun l => l.release j flow_id) s }
    if flow_id = 0 then
      { c1 with connection_lists := c1.connection_lists.modify (fun l => l.retire j) s }
    else
      { c1 with
        flow_stop_time := c1.flow_stop_time.set (flow_id - 1) t_flow
        req_stop_time := stamp_req_stop plan c1.req_stop_time flow_id t_req }

/-- One iteration of some listener thread. -/
structure ListenEv where
  server : Nat
  node : Nat
  read : ReadResult
  t_flow : timeval
  t_req : timeval
deriving DecidableEq, Repr

/-- Listener iterations applied in order. -/
def listen_all (plan : Plan) (c : Client) (evs : List ListenEv) : Client :=
  evs.foldl (fun c e => listen_connection plan c e.server e.node e.read e.t_flow e.t_req) c

/-! ## set_req_variables -/

/-- What the samplers (`gen_random_CDF`, `gen_value_weight`, `poission_gen_interval`, all
in `common.c`) and `rand()` return while one request is planned; `draws k` is the result
of the `rand()` call of flow `k`. -/
structure Sample where
  size : Int
  fanout : Int
  dscp : Int
  rate : Int
  sleep_us : Int
  draws : Nat → Nat

/-- The statement `counts[server_id]++` on an `int` array. -/
def bump (counts : List Int) (server_id : Nat) : List Int :=
  counts.modify (fun x => wrapI32 (x + 1)) server_id

/-- The loop `for (k = 0; k < req_fanout[i]; k++)` that places each flow of a request on
the server `rand() % num_server`; the state is
(`req_server_flow_count[i]`, `server_flow_count`). -/
def place_flows (num_server : Nat) (draws : Nat → Nat) :
    Nat → Nat → List Int × List Int → List Int × List Int
  | 0, _, st => st
  | n + 1, k, (rc, sc) =>
    let server_id := draws k % num_server
    place_flows num_server draws n (k + 1) (bump rc server_id, bump sc server_id)

/-- The per-request arrays while the first loop of `set_req_variables` fills them. -/
structure PlanAcc where
  req_size : List Int
  req_fanout : List Int
  req_dscp : List Int
  req_rate : List Int
  req_sleep_us : List Int
  req_server_flow_count : List (List Int)
  server_flow_count : List Int
  flow_total_num : Int
deriving DecidableEq, Repr

/-- The body of the first loop of `set_req_variables` for one request. -/
def plan_request (num_server : Nat) (sm : Sample) (a : PlanAcc) : PlanAcc :=
  let placed := place_flows num_server sm.draws sm.fanout.toNat 0
    (List.replicate num_server 0, a.server_flow_count)
  { req_size := a.req_size ++ [sm.size]
    req_fanout := a.req_fanout ++ [sm.fanout]
    req_dscp := a.req_dscp ++ [sm.dscp]
    req_rate := a.req_rate ++ [sm.rate]
    req_sleep_us := a.req_sleep_us ++ [sm.sleep_us]
    req_server_flow_count := a.req_server_flow_count ++ [placed.1]
    server_flow_count := placed.2
    flow_total_num := wrapI32 (a.flow_total_num + sm.fanout) }

/-- The first loop of `set_req_variables`: requests `i, i+1, ..` for `n` iterations. -/
def plan_requests (num_server : Nat) (samples : Nat → Sample) : Nat → Nat → PlanAcc → PlanAcc
  | 0, _, a => a
  | n + 1, i, a => plan_requests num_server samples n (i + 1) (plan_request num_server (samples i) a)

/-- The loop `for (k = 0; k < req_fanout[i]; k++) flow_req_id[flow_id++] = i;`; the
array index `flow_id` is kept as a natural number. -/
def fill_request (i : Int) : Nat → List Int × Nat → List Int × Nat
  | 0, st => st
  | n + 1, (arr, flow_id) => fill_request i n (arr.set flow_id i, flow_id + 1)

/-- The loop over the requests that assigns a request ID to each flow; the second
argument is the index of the first request still to be handled by the loop. -/
def fill_flow_req_id : List Int → Nat → List Int × Nat → List Int × Nat
  | [], _, st => st
  | fanout :: rest, i, st => fill_flow_req_id rest (i + 1) (fill_request i fanout.toNat st)

/-- The function `set_req_variables`.  `garbage` is the content of the freshly
allocated `flow_req_id` array.  The result is `none` when the function does not reach
its end: `num_server = 0` (`rand() % num_server`, or one of the cases below),
`req_total_num <= 0` or `flow_total_num <= 0` (an allocation of negative size fails, a
zero divisor traps in the summary at the end). -/
def set_req_variables (num_server : Nat) (req_total_num : Int) (samples : Nat → Sample)
    (garbage : Nat → Int) : Option Plan :=
  if num_server = 0 then none
  else if req_total_num ≤ 0 then none
  else
    let a := plan_requests num_server samples req_total_num.toNat 0
      { req_size := [], req_fanout := [], req_dscp := [], req_rate := [], req_sleep_us := [],
        req_server_flow_count := [], server_flow_count := List.replicate num_server 0,
        flow_total_num := 0 }
    if a.flow_total_num ≤ 0 then none
    else
      let filled := fill_flow_req_id a.req_fanout 0
        ((List.range a.flow_total_num.toNat).map garbage, 0)
      some
        { num_server := num_server
          req_total_num := req_total_num
          flow_total_num := a.flow_total_num
          req_size := a.req_size
          req_fanout := a.req_fanout
          req_dscp := a.req_dscp
          req_rate := a.req_rate
          req_sleep_us := a.req_sleep_us
          req_server_flow_count := a.req_server_flow_count
          server_flow_count := a.server_flow_count
          flow_req_id := filled.1 }

/-- The client state when `main` calls `run_requests`: the pools as `Init_Conn_List` and
`Insert_Conn_List` left them, `global_flow_id = 0`, the request times zeroed by `calloc`,
the flow times as `malloc` returned them. -/
def initial_client (plan : Plan) (pools : List Conn_List) (flow_start flow_stop : Nat → timeval) :
    Client :=
  { connection_lists := pools
    global_flow_id := 0
    req_start_time := List.replicate plan.req_total_num.toNat ⟨0, 0⟩
    req_stop_time := List.replicate plan.req_total_num.toNat ⟨0, 0⟩
    flow_start_time := (List.range plan.flow_total_num.toNat).map flow_start
    flow_stop_time := (List.range plan.flow_total_num.toNat).map flow_stop }

/-! ## run_request -/

/-- What the environment answers during one call of `run_request`: whether the two
allocations succeed, the results of `Insert_Conn_List` and `Search_N_Conn_List` (both in
`conn.c`; each receives the server index, the list and the count, and returns its result
with the list as it leaves it), and the clock readings. -/
structure ReqEnv where
  malloc_ok : Bool
  Insert_Conn_List : Nat → Conn_List → Int → Bool × Conn_List
  Search_N_Conn_List : Nat → Conn_List → Int → Option (List Nat) × Conn_List
  start_now : timeval
  flow_now : Nat → timeval

/-- The expression `max(num_conn - connection_lists[i].available_len, 0)` stored into the
`int num_conn_new`: the subtraction and the comparison are unsigned. -/
def num_conn_new (num_conn : Int) (available_len : Nat) : Int :=
  wrapI32 (maxU32Zero (toU32 (num_conn - available_len)))

/-- The flow `run_request` builds for connection `k` of server `s` when the global
counter is `g`. -/
def make_flow (plan : Plan) (req_id s : Nat) (conn : List Nat) (k : Nat) (g : Int) : Flow :=
  { server := s
    node := conn.getD k 0
    flow_id := toU32 (wrapI32 (g + 1))
    flow_size := toU32 (Int.tdiv (plan.req_size.getD req_id 0) (plan.req_fanout.getD req_id 0))
    flow_tos := toU32 (wrapI32 (plan.req_dscp.getD req_id 0 * 4))
    flow_rate := toU32 (plan.req_rate.getD req_id 0) }

/-- The loop `for (k = 0; k < num_conn; k++)` of `run_request`; the state is the filled
part of `flow_req` and `global_flow_id`. -/
def assign_flows (plan : Plan) (req_id s : Nat) (conn : List Nat) :
    Nat → Nat → List Flow × Int → List Flow × Int
  | 0, _, st => st
  | n + 1, k, (flow_req, g) =>
    assign_flows plan req_id s conn n (k + 1)
      (flow_req ++ [make_flow plan req_id s conn k g], wrapI32 (g + 1))

/-- State of the server loop of `run_request`: the client, the filled part of `flow_req`
(its length is `conn_id`) and the calls of `Insert_Conn_List` made so far
(server, `num_conn_new`). -/
structure ReqAcc where
  client : Client
  flow_req : List Flow
  inserted : List (Nat × Int)
deriving DecidableEq, Repr

/-- Write `connection_lists[s]`. -/
def Client.setList (c : Client) (s : Nat) (l : Conn_List) : Client :=
  { c with connection_lists := c.connection_lists.set s l }

/-- The loop `for (i = 0; i < num_server; i++)` of `run_request` over the servers still to
visit; the flag of the result is `false` when the function returned from inside the loop. -/
def run_request_loop (plan : Plan) (env : ReqEnv) (req_id : Nat) : List Nat → ReqAcc → ReqAcc × Bool
  | [], a => (a, true)
  | i :: rest, a =>
    let num_conn := (plan.req_server_flow_count.getD req_id []).getD i 0
    if num_conn = 0 then run_request_loop plan env req_id rest a
    else
      let n_new := num_conn_new num_conn (a.client.list i).available_len
      let grown : ReqAcc × Bool :=
        if n_new > 0 then
          let r := env.Insert_Conn_List i (a.client.list i) n_new
          ({ a with client := a.client.setList i r.2, inserted := a.inserted ++ [(i, n_new)] }, r.1)
        else (a, true)
      if grown.2 = false then (grown.1, false)
      else
        let found := env.Search_N_Conn_List i (grown.1.client.list i) num_conn
        let c1 := grown.1.client.setList i found.2
        match found.1 with
        | none => ({ grown.1 with client := c1 }, false)
        | some conn =>
          let built := assign_flows plan req_id i conn num_conn.toNat 0
            (grown.1.flow_req, c1.global_flow_id)
          run_request_loop plan env req_id rest
            { grown.1 with client := { c1 with global_flow_id := built.2 }, flow_req := built.1 }

/-- The `run_flow` threads of one request, run in index order from thread `i` on. -/
def run_flows (env : ReqEnv) : List Flow → Nat → Client × List Sent → Client × List Sent
  | [], _, st => st
  | f :: fs, i, (c, out) =>
    let r := run_flow c f (env.flow_now i)
    run_flows env fs (i + 1) (r.1, out ++ [r.2])

/-- What one call of `run_request` did: the client after it, the flows it built, the
`Insert_Conn_List` calls it made, the buffers its `run_flow` threads wrote, and whether it
reached the dispatch (`false` when it returned early). -/
structure ReqResult where
  client : Client
  flow_req : List Flow
  inserted : List (Nat × Int)
  sent : List Sent
  dispatched : Bool
deriving DecidableEq, Repr

/-- The function `run_request`. -/
def run_request (plan : Plan) (env : ReqEnv) (c : Client) (req_id : Nat) : ReqResult :=
  if env.malloc_ok = false then
    { client := c, flow_req := [], inserted := [], sent := [], dispatched := false }
  else
    let r := run_request_loop plan env req_id (List.range plan.num_server)
      { client := c, flow_req := [], inserted := [] }
    if r.2 = false then
      { client := r.1.client, flow_req := r.1.flow_req, inserted := r.1.inserted, sent := [],
        dispatched := false }
    else if (r.1.flow_req.length : Int) ≠ plan.req_fanout.getD req_id 0 then
      { client := r.1.client, flow_req := r.1.flow_req, inserted := r.1.inserted, sent := [],
        dispatched := false }
    else
      let c1 : Client :=
        { r.1.client with req_start_time := r.1.client.req_start_time.set req_id env.start_now }
      let w := run_flows env r.1.flow_req 0 (c1, [])
      { client := w.1, flow_req := r.1.flow_req, inserted := r.1.inserted, sent := w.2,
        dispatched := true }

/-! ## run_requests -/

/-- The pacing statements at the end of one iteration of `run_requests`: the new value
of `sleep_us` and the argument of `usleep` when it is called. -/
def pace (usleep_overhead_us sleep_us req_sleep_us_i req_duration_us : Int) : Int × Option Nat :=
  let debt := wrapI32 (sleep_us + req_sleep_us_i)
  if debt > wrapI32 (usleep_overhead_us + req_duration_us) then
    (0, some (toU32 (wrapI32 (wrapI32 (debt - usleep_overhead_us) - req_duration_us))))
  else (debt, none)

/-- The expression assigned to the `int req_duration_us`. -/
def duration_us (tv_start tv_end : timeval) : Int :=
  wrapI32 ((tv_end.tv_sec - tv_start.tv_sec) * 1000000 + tv_end.tv_usec - tv_start.tv_usec)

/-- What the environment supplies during one iteration of `run_requests`: the two clock
readings around `run_request`, the environment of `run_request`, and the listener
iterations that complete before the next request starts. -/
structure IterEnv where
  req_tv_start : timeval
  req_tv_end : timeval
  env : ReqEnv
  listeners : List ListenEv

/-- What one iteration of `run_requests` did. -/
structure IterLog where
  req_id : Nat
  request : ReqResult
  req_duration_us : Int
  sleep_in : Int
  usleep : Option Nat
  sleep_out : Int
deriving DecidableEq, Repr

/-- The loop of `run_requests`: `n` iterations from request `i` on, with `sleep_us = s`
on entry. -/
def run_requests_loop (plan : Plan) (usleep_overhead_us : Int) (envs : Nat → IterEnv) :
    Nat → Nat → Client → Int → List IterLog × Client × Int
  | 0, _, c, s => ([], c, s)
  | n + 1, i, c, s =>
    let e := envs i
    let r := run_request plan e.env c i
    let d := duration_us e.req_tv_start e.req_tv_end
    let p := pace usleep_overhead_us s (plan.req_sleep_us.getD i 0) d
    let c1 := listen_all plan r.client e.listeners
    let rest := run_requests_loop plan usleep_overhead_us envs n (i + 1) c1 p.1
    ({ req_id := i, request := r, req_duration_us := d, sleep_in := s, usleep := p.2,
       sleep_out := p.1 } :: rest.1, rest.2)

/-- The function `run_requests`. -/
def run_requests (plan : Plan) (usleep_overhead_us : Int) (envs : Nat → IterEnv) (c : Client) :
    List IterLog × Client × Int :=
  run_requests_loop plan usleep_overhead_us envs plan.req_total_num.toNat 0 c 0

/-! ## exit_connections -/

/-- The function `exit_connection`: the terminator flow handed to `run_flow`. -/
def exit_connection (c : Client) (s j : Nat) (now : timeval) : Client × Sent :=
  run_flow c { server := s, node := j, flow_id := 0, flow_size := 100, flow_tos := 0,
               flow_rate := 0 } now

/-- The walk `while (ptr)` of `exit_connections` over the nodes of list `s` still to
visit. -/
def exit_nodes (s : Nat) (now : timeval) : List Nat → Client × List Sent → Client × List Sent
  | [], st => st
  | j :: js, (c, out) =>
    if (c.node s j).connected = true then
      let r := exit_connection c s j now
      exit_nodes s now js (r.1, out ++ [r.2])
    else exit_nodes s now js (c, out)

/-- The loop of `exit_connections` over the servers still to visit. -/
def exit_servers (now : timeval) : List Nat → Client × List Sent → Client × List Sent
  | [], st => st
  | s :: ss, (c, out) =>
    exit_servers now ss (exit_nodes s now (List.range (c.list s).nodes.length) (c, out))

/-- The function `exit_connections`. -/
def exit_connections (plan : Plan) (c : Client) (now : timeval) : Client × List Sent :=
  exit_servers now (List.range plan.num_server) (c, [])

/-! ## print_statistic -/

/-- Conversion of a `long` value to `unsigned long` (64 bits, LP64). -/
def toU64 (x : Int) : Nat := (x % 18446744073709551616).toNat

/-- The expression
`(stop.tv_sec - start.tv_sec) * 1000000 + stop.tv_usec - start.tv_usec`, computed in
`long` and assigned to an `unsigned long`. -/
def diff_us (start stop : timeval) : Nat :=
  toU64 ((stop.tv_sec - start.tv_sec) * 1000000 + stop.tv_usec - start.tv_usec)

/-- A line of the per-request log: size, RCT (us), DSCP, fanout, rate. -/
structure ReqLine where
  size : Int
  rct_us : Nat
  dscp : Int
  fanout : Int
  rate : Int
deriving DecidableEq, Repr

/-- A line of the per-flow log: size, FCT (us), DSCP, rate. -/
structure FlowLine where
  size : Int
  fct_us : Nat
  dscp : Int
  rate : Int
deriving DecidableEq, Repr

/-- The test `tv_sec == 0 && tv_usec == 0`. -/
def timeval.is_zero (t : timeval) : Bool := t.tv_sec == 0 && t.tv_usec == 0

/-- What the two loops of `print_statistic` write: the lines of the per-request log,
the requests reported as `Unfinished request`, the lines of the per-flow log and the
flows reported as `Unfinished flow`. -/
structure Statistic where
  rct_log : List ReqLine
  unfinished_requests : List Nat
  fct_log : List FlowLine
  unfinished_flows : List Nat
deriving DecidableEq, Repr

/-- The log line of request `i`. -/
def request_line (plan : Plan) (c : Client) (i : Nat) : ReqLine :=
  { size := plan.req_size.getD i 0
    rct_us := diff_us (c.req_start_time.getD i ⟨0, 0⟩) (c.req_stop_time.getD i ⟨0, 0⟩)
    dscp := plan.req_dscp.getD i 0
    fanout := plan.req_fanout.getD i 0
    rate := plan.req_rate.getD i 0 }

/-- The log line of the flow with index `i` (flow id `i + 1`). -/
def flow_line (plan : Plan) (c : Client) (i : Nat) : FlowLine :=
  { size := Int.tdiv (plan.req_size.getD (plan.flow_req_id.getD i 0).toNat 0)
      (plan.req_fanout.getD (plan.flow_req_id.getD i 0).toNat 0)
    fct_us := diff_us (c.flow_start_time.getD i ⟨0, 0⟩) (c.flow_stop_time.getD i ⟨0, 0⟩)
    dscp := plan.req_dscp.getD (plan.flow_req_id.getD i 0).toNat 0
    rate := plan.req_rate.getD (plan.flow_req_id.getD i 0).toNat 0 }

/-- The two loops of `print_statistic` (the goodput line and `Print_Conn_List` are left
out). -/
def print_statistic (plan : Plan) (c : Client) : Statistic :=
  { rct_log := (List.range plan.req_total_num.toNat).map (request_line plan c)
    unfinished_requests := (List.range plan.req_total_num.toNat).filter
      (fun i => (c.req_stop_time.getD i ⟨0, 0⟩).is_zero)
    fct_log := (List.range plan.flow_total_num.toNat).map (flow_line plan c)
    unfinished_flows := (List.range plan.flow_total_num.toNat).filter
      (fun i => (c.flow_stop_time.getD i ⟨0, 0⟩).is_zero) }

/-! ## read_config -/

/-- One line of the configuration file as the `sscanf` calls of `read_config` see it:
the key, and the values left in the variables that the line fills.  Floating point is
not modelled: of the `double` that a `load` line leaves in `load`, the line carries the
result of the test `load > 0` and the `int` that `avg_CDF(req_size_dist) * 8 / load`
converts to. -/
inductive ConfigLine where
  | server (port : Int)
  | load (positive : Bool) (period : Int)
  | num_reqs (n : Int)
  | req_size_dist
  | fanout (size prob : Int)
  | service (dscp prob : Int)
  | rate (value prob : Int)
  | other
deriving DecidableEq, Repr

/-- The fatal errors of `read_config`. -/
inductive ConfigError where
  | invalid_key
  | no_server
  | load_count
  | num_reqs_count
  | dist_count
  | illegal_fanout_size
  | illegal_fanout_prob
  | illegal_dscp
  | illegal_dscp_prob
  | illegal_rate_value
  | illegal_rate_prob
  | period_not_positive
  | load_not_positive
deriving DecidableEq, Repr

/-- The globals that `read_config` fills. -/
structure Config where
  num_server : Nat
  req_total_num : Int
  fanout_size : List Int
  fanout_prob : List Int
  fanout_prob_total : Int
  max_fanout_size : Int
  service_dscp : List Int
  service_prob : List Int
  service_prob_total : Int
  rate_value : List Int
  rate_prob : List Int
  rate_prob_total : Int
  load_positive : Bool
  period_us : Int
deriving DecidableEq, Repr

/-- The globals before the second pass: the initializers of the source
(`max_fanout_size = 1`, `load = 0`, everything else 0 or empty). -/
def Config.initial : Config :=
  { num_server := 0, req_total_num := 0, fanout_size := [], fanout_prob := [],
    fanout_prob_total := 0, max_fanout_size := 1, service_dscp := [], service_prob := [],
    service_prob_total := 0, rate_value := [], rate_prob := [], rate_prob_total := 0,
    load_positive := false, period_us := 0 }

/-- Modelled from the spec: `error` of `common.c` (not in the sources) reports the
message and ends the process (fail-fast); the result of `read_config` is then the
error. -/
def error (e : ConfigError) : Except ConfigError Config := Except.error e

/-- The body of the second `while (fgets ...)` loop of `read_config` for one line. -/
def read_line (g : Config) : ConfigLine → Except ConfigError Config
  | ConfigLine.server _ => Except.ok { g with num_server := g.num_server + 1 }
  | ConfigLine.load positive period =>
    Except.ok { g with load_positive := positive, period_us := period }
  | ConfigLine.num_reqs n => Except.ok { g with req_total_num := n }
  | ConfigLine.req_size_dist => Except.ok g
  | ConfigLine.fanout size prob =>
    if size < 1 then error ConfigError.illegal_fanout_size
    else if prob < 0 then error ConfigError.illegal_fanout_prob
    else
      Except.ok { g with
        fanout_size := g.fanout_size ++ [size]
        fanout_prob := g.fanout_prob ++ [prob]
        fanout_prob_total := wrapI32 (g.fanout_prob_total + prob)
        max_fanout_size := if size > g.max_fanout_size then size else g.max_fanout_size }
  | ConfigLine.service dscp prob =>
    if dscp < 0 ∨ dscp ≥ 64 then error ConfigError.illegal_dscp
    else if prob < 0 then error ConfigError.illegal_dscp_prob
    else
      Except.ok { g with
        service_dscp := g.service_dscp ++ [dscp]
        service_prob := g.service_prob ++ [prob]
        service_prob_total := wrapI32 (g.service_prob_total + prob) }
  | ConfigLine.rate value prob =>
    if value < 0 then error ConfigError.illegal_rate_value
    else if prob < 0 then error ConfigError.illegal_rate_prob
    else
      Except.ok { g with
        rate_value := g.rate_value ++ [value]
        rate_prob := g.rate_prob ++ [prob]
        rate_prob_total := wrapI32 (g.rate_prob_total + prob) }
  | ConfigLine.other => Except.ok g

/-- The second `while (fgets ...)` loop of `read_config`. -/
def read_lines : List ConfigLine → Config → Except ConfigError Config
  | [], g => Except.ok g
  | l :: ls, g =>
    match read_line g l with
    | Except.ok g1 => read_lines ls g1
    | Except.error e => Except.error e

/-- The defaults `read_config` installs for a distribution without lines. -/
def apply_defaults (g : Config) : Config :=
  let g1 : Config :=
    if g.fanout_size.length = 0 then
      { g with fanout_size := [1], fanout_prob := [100], fanout_prob_total := 100 }
    else g
  let g2 : Config :=
    if g1.service_dscp.length = 0 then
      { g1 with service_dscp := [0], service_prob := [100], service_prob_total := 100 }
    else g1
  if g2.rate_value.length = 0 then
    { g2 with rate_value := [0], rate_prob := [100], rate_prob_total := 100 }
  else g2

/-- The test on `load` and `period_us` that ends `read_config`. -/
def check_load (g : Config) : Except ConfigError Config :=
  if g.load_positive = true then
    if g.period_us ≤ 0 then error ConfigError.period_not_positive else Except.ok g
  else error ConfigError.load_not_positive

/-- The test `!strcmp(key, ...)` for each of the seven keys fails. -/
def ConfigLine.is_other : ConfigLine → Bool
  | ConfigLine.other => true
  | _ => false

/-- Number of lines with the key `server`. -/
def count_server (lines : List ConfigLine) : Nat :=
  lines.countP (fun l => match l with | ConfigLine.server _ => true | _ => false)

/-- Number of lines with the key `load`. -/
def count_load (lines : List ConfigLine) : Nat :=
  lines.countP (fun l => match l with | ConfigLine.load _ _ => true | _ => false)

/-- Number of lines with the key `num_reqs`. -/
def count_num_reqs (lines : List ConfigLine) : Nat :=
  lines.countP (fun l => match l with | ConfigLine.num_reqs _ => true | _ => false)

/-- Number of lines with the key `req_size_dist`. -/
def count_dist (lines : List ConfigLine) : Nat :=
  lines.countP (fun l => match l with | ConfigLine.req_size_dist => true | _ => false)

/-- The function `read_config` on the lines of the file (the file opens, the
allocations succeed and `load_CDF` returns): the first pass over the keys, the tests on
the counts, the second pass, the defaults and the test on the load. -/
def read_config (lines : List ConfigLine) : Except ConfigError Config :=
  if lines.any ConfigLine.is_other then error ConfigError.invalid_key
  else if count_server lines < 1 then error ConfigError.no_server
  else if count_load lines ≠ 1 then error ConfigError.load_count
  else if count_num_reqs lines ≠ 1 then error ConfigError.num_reqs_count
  else if count_dist lines ≠ 1 then error ConfigError.dist_count
  else
    match read_lines lines Config.initial with
    | Except.error e => Except.error e
    | Except.ok g => check_load (apply_defaults g)

/-- The divisors of the integer divisions in the summary that ends
`set_req_variables`, `req_total_num` and `flow_total_num`, when the function gets that
far: `malloc(0)` returns a pointer, an allocation of negative size fails, and
`rand() % num_server` traps when a flow is placed on zero servers. -/
def summary_divisors (num_server : Nat) (req_total_num : Int) (samples : Nat → Sample) :
    Option (Int × Int) :=
  if req_total_num < 0 then none
  else if num_server = 0
      ∧ (List.range req_total_num.toNat).any (fun i => decide (0 < (samples i).fanout)) = true
    then none
  else
    let a := plan_requests num_server samples req_total_num.toNat 0
      { req_size := [], req_fanout := [], req_dscp := [], req_rate := [], req_sleep_us := [],
        req_server_flow_count := [], server_flow_count := List.replicate num_server 0,
        flow_total_num := 0 }
    if a.flow_total_num < 0 then none
    else some (req_total_num, a.flow_total_num)

/-- The first two calls of `main` after the arguments are read: `read_config`, whose
fatal error ends the process, then `set_req_variables` on the globals it filled. -/
def configure_and_plan (lines : List ConfigLine) (samples : Nat → Sample) (garbage : Nat → Int) :
    Except ConfigError (Option Plan) :=
  match read_config lines with
  | Except.error e => Except.error e
  | Except.ok g => Except.ok (set_req_variables g.num_server g.req_total_num samples garbage)

/-! ## Vocabulary of the statements and sample inputs -/

/-- The buffer of a terminator flow (`flow_id=0, flow_size=100, flow_tos=0, flow_rate=0`). -/
def terminator_buf : List Nat := [0, 0, 0, 0, 100, 0, 0, 0, 0, 0, 0, 0, 0, 0, 0, 0]

/-- The terminator writes expected from a walk over list `s` of client `c`: one per node
with `connected` set, in list order. -/
def terminators_of (c : Client) (s : Nat) : List Sent :=
  ((List.range (c.list s).nodes.length).filter (fun j => (c.node s j).connected)).map
    (fun j => { server := s, node := j, buf := terminator_buf })

/-- Two client states with the same nodes per list, the same `connected` flags and the
same `flow_start_time` array. -/
def same_connected (c c' : Client) : Prop :=
  (∀ s j, (c'.node s j).connected = (c.node s j).connected)
  ∧ (∀ s, (c'.list s).nodes.length = (c.list s).nodes.length)
  ∧ c'.flow_start_time = c.flow_start_time

/-- A client with one pool holding one connection whose flow 1 is outstanding. -/
def demo_busy_client : Client :=
  { connection_lists := [{ nodes := [⟨true, true⟩], len := 1, available_len := 0,
                           flow_finished := 0 }]
    global_flow_id := 1
    req_start_time := [⟨7, 0⟩]
    req_stop_time := [⟨0, 0⟩]
    flow_start_time := [⟨7, 0⟩]
    flow_stop_time := [⟨0, 0⟩] }

/-- A plan of one request with one flow on one server. -/
def demo_plan : Plan :=
  { num_server := 1, req_total_num := 1, flow_total_num := 1, req_size := [100],
    req_fanout := [1], req_dscp := [0], req_rate := [0], req_sleep_us := [5],
    req_server_flow_count := [[1]], server_flow_count := [1], flow_req_id := [0] }

/-- The flow ids built by the `run_request` calls of a run, in the order of assignment. -/
def assigned_ids (logs : List IterLog) : List Nat :=
  logs.flatMap (fun lg => lg.request.flow_req.map Flow.flow_id)

/-- The fields `run_request` gives every flow of request `req_id`. -/
def flow_fields (plan : Plan) (req_id : Nat) (f : Flow) : Prop :=
  f.flow_size = toU32 (Int.tdiv (plan.req_size.getD req_id 0) (plan.req_fanout.getD req_id 0))
  ∧ f.flow_tos = toU32 (wrapI32 (plan.req_dscp.getD req_id 0 * 4))
  ∧ f.flow_rate = toU32 (plan.req_rate.getD req_id 0)

/-- The counter `global_flow_id` and the ids in `flow_req` when `N0` ids were assigned
before the current request. -/
def ids_ok (N0 : Nat) (a : ReqAcc) : Prop :=
  a.client.global_flow_id = wrapI32 ((N0 + a.flow_req.length : Nat) : Int)
  ∧ a.flow_req.map Flow.flow_id
      = (List.range' N0 a.flow_req.length).map (fun m => (m + 1) % 4294967296)

/-- An environment in which both allocations, `Insert_Conn_List` and `Search_N_Conn_List`
succeed; the search returns the first `n` positions of the list. -/
def demo_env : ReqEnv :=
  { malloc_ok := true
    Insert_Conn_List := fun _ l n =>
      (true, { l with nodes := l.nodes ++ List.replicate n.toNat ⟨true, false⟩,
                      len := l.len + n.toNat, available_len := l.available_len + n.toNat })
    Search_N_Conn_List := fun _ l n => (some (List.range n.toNat), l)
    start_now := ⟨7, 0⟩
    flow_now := fun _ => ⟨7, 1⟩ }

/-- A client in front of `run_requests` for `demo_plan`: one fresh pool of one connection. -/
def demo_client : Client :=
  initial_client demo_plan [fresh_pool 1] (fun _ => ⟨0, 0⟩) (fun _ => ⟨0, 0⟩)

/-- A row of per-server flow counts that fits a request of `fanout` flows on `num_server`
servers: one entry per server, no entry negative, the entries add up to `fanout`. -/
def row_ok (num_server : Nat) (row : List Int) (fanout : Int) : Prop :=
  row.length = num_server ∧ (∀ x ∈ row, 0 ≤ x) ∧ row.sum = fanout

/-- Samples for three requests on two servers: sizes 1000, fanouts 2, 1, 3. -/
def demo_samples : Nat → Sample := fun i =>
  { size := 1000, fanout := if i = 0 then 2 else if i = 1 then 1 else 3, dscp := 5, rate := 0,
    sleep_us := 7, draws := fun k => 3 * k + i }

/-- Requests `i, i+1, ..`, each repeated as often as its fanout says. -/
def request_blocks : List Int → Nat → List Int
  | [], _ => []
  | fanout :: rest, i => List.replicate fanout.toNat (i : Int) ++ request_blocks rest (i + 1)

/-- The sum of `req_fanout[r]` over the requests `r < i`. -/
def flow_offset (req_fanout : List Int) (i : Nat) : Nat :=
  ((req_fanout.take i).map Int.toNat).sum

/-- The value lies in the range of a 32-bit `int`. -/
def fits_int (x : Int) : Prop := -2147483648 ≤ x ∧ x < 2147483648

instance (x : Int) : Decidable (fits_int x) := by unfold fits_int; infer_instance

/-- A plan of two requests of one flow each on one server, with planned intervals of
1 us. -/
def overload_plan : Plan :=
  { num_server := 1, req_total_num := 2, flow_total_num := 2, req_size := [100000, 100000],
    req_fanout := [1, 1], req_dscp := [0, 0], req_rate := [0, 0], req_sleep_us := [1, 1],
    req_server_flow_count := [[1], [1]], server_flow_count := [2], flow_req_id := [0, 1] }

/-- Every request takes 1 us to dispatch; no response arrives during the run. -/
def overload_envs : Nat → IterEnv := fun _ =>
  { req_tv_start := ⟨7, 0⟩, req_tv_end := ⟨7, 1⟩, env := demo_env, listeners := [] }

/-- The client in front of `run_requests` for `overload_plan`: a fresh pool of two
connections. -/
def overload_client : Client :=
  initial_client overload_plan [fresh_pool 2] (fun _ => ⟨0, 0⟩) (fun _ => ⟨0, 0⟩)

/-- Every request takes 5 us to dispatch; no response arrives during the run. -/
def covered_envs : Nat → IterEnv := fun _ =>
  { req_tv_start := ⟨7, 0⟩, req_tv_end := ⟨7, 5⟩, env := demo_env, listeners := [] }

/-- Positions of the nodes with `connected && !busy`, in list order. -/
def idle_positions (l : Conn_List) : List Nat :=
  (List.range l.nodes.length).filter (fun j => (l.nodes.getD j default).connected
    && !(l.nodes.getD j default).busy)

/-- Modelled from the spec: a `Search_N_Conn_List` of `conn.c` (not in the sources) that
returns the first `n` nodes in insertion order with `connected && !busy`, and fails when
fewer than `n` exist; the list is left as it is (`run_flow` sets `busy`). -/
def spec_search (l : Conn_List) (n : Int) : Option (List Nat) × Conn_List :=
  if n.toNat ≤ (idle_positions l).length then (some ((idle_positions l).take n.toNat), l)
  else (none, l)

/-- Samples for three requests on one server: fanouts 5, 1, 1. -/
def abort_samples : Nat → Sample := fun i =>
  { size := 1000, fanout := if i = 0 then 5 else 1, dscp := 0, rate := 0, sleep_us := 100,
    draws := fun k => k }

/-- The plan `set_req_variables` makes of `abort_samples`. -/
def abort_plan : Plan :=
  { num_server := 1, req_total_num := 3, flow_total_num := 7,
    req_size := [1000, 1000, 1000], req_fanout := [5, 1, 1], req_dscp := [0, 0, 0],
    req_rate := [0, 0, 0], req_sleep_us := [100, 100, 100],
    req_server_flow_count := [[5], [1], [1]], server_flow_count := [7],
    flow_req_id := [0, 0, 0, 0, 0, 1, 2] }

/-- The response the server sends for flow `flow_id` of 200 bytes on node `j` of server
0: the header echoed, the payload complete. -/
def response (j flow_id : Nat) (sec : Int) : ListenEv :=
  { server := 0, node := j, read := ReadResult.ok (fill_meta_data ⟨0, j, flow_id, 200, 0, 0⟩),
    t_flow := ⟨sec, 0⟩, t_req := ⟨sec, 1⟩ }

/-- The environment of the run in which request 1 aborts: no new connection can be
opened (`Insert_Conn_List` fails whenever it is called); request 0 occupies all five
connections; the five responses arrive after `run_request(1)` has returned, the response
to the flow of request 2 after `run_request(2)`. -/
def abort_envs : Nat → IterEnv := fun i =>
  { req_tv_start := ⟨7 + i, 0⟩
    req_tv_end := ⟨7 + i, 50⟩
    env := { malloc_ok := true
             Insert_Conn_List := fun _ l _ => (false, l)
             Search_N_Conn_List := fun _ l n => spec_search l n
             start_now := ⟨7 + i, 10⟩
             flow_now := fun _ => ⟨7 + i, 20⟩ }
    listeners :=
      if i = 1 then [response 0 1 9, response 1 2 9, response 2 3 9, response 3 4 9,
                     response 4 5 9]
      else if i = 2 then [response 0 6 12]
      else [] }

/-- The client in front of `run_requests` for `abort_plan`: a fresh pool of five
connections. -/
def abort_client : Client :=
  initial_client abort_plan [fresh_pool 5] (fun _ => ⟨0, 0⟩) (fun _ => ⟨0, 0⟩)

/-- The function `run_flow` with the result of its `write_exact` call as an input: a
result other than 16 (`meta_data_size`) prints the line `Error: write meta data`, which
is the flag of the result; nothing else depends on it. -/
def run_flow_write (c : Client) (f : Flow) (now : timeval) (written : Nat) :
    Client × Sent × Bool :=
  ((run_flow c f now).1, (run_flow c f now).2, decide (written ≠ 16))

/-- The function `exit_connection` with the result of the `write_exact` call of its
`run_flow` as an input. -/
def exit_connection_write (c : Client) (s j : Nat) (now : timeval) (written : Nat) :
    Client × Sent × Bool :=
  run_flow_write c { server := s, node := j, flow_id := 0, flow_size := 100, flow_tos := 0,
                     flow_rate := 0 } now written

/-- A client whose only connection has been retired after one finished flow. -/
def demo_retired_client : Client :=
  { connection_lists := [{ nodes := [⟨false, false⟩], len := 1, available_len := 0,
                           flow_finished := 1 }]
    global_flow_id := 1
    req_start_time := [⟨7, 0⟩]
    req_stop_time := [⟨7, 900⟩]
    flow_start_time := [⟨7, 0⟩]
    flow_stop_time := [⟨7, 900⟩] }

/-- The four `memcpy` calls with which `listen_connection` extracts the meta data from
`read_buf`: (`flow_id`, `flow_size`, `flow_tos`, `flow_rate`) from offsets 0, 4, 8, 12. -/
def extract_meta_data (read_buf : List Nat) : Nat × Nat × Nat × Nat :=
  (u32_at read_buf 0, u32_at read_buf 4, u32_at read_buf 8, u32_at read_buf 12)

/-- The time of a `timeval` in microseconds. -/
def timeval.us (t : timeval) : Int := t.tv_sec * 1000000 + t.tv_usec

/-- The values of an accepted line: fanout size at least 1, DSCP in 0..63, rate value
not negative, weight not negative. -/
def ConfigLine.legal : ConfigLine → Prop
  | ConfigLine.fanout size prob => 1 ≤ size ∧ 0 ≤ prob
  | ConfigLine.service dscp prob => 0 ≤ dscp ∧ dscp ≤ 63 ∧ 0 ≤ prob
  | ConfigLine.rate value prob => 0 ≤ value ∧ 0 ≤ prob
  | _ => True

/-- The same conditions on the arrays that `read_config` fills. -/
def Config.legal (g : Config) : Prop :=
  (∀ x ∈ g.fanout_size, 1 ≤ x) ∧ (∀ x ∈ g.fanout_prob, 0 ≤ x)
  ∧ (∀ x ∈ g.service_dscp, 0 ≤ x ∧ x ≤ 63) ∧ (∀ x ∈ g.service_prob, 0 ≤ x)
  ∧ (∀ x ∈ g.rate_value, 0 ≤ x) ∧ (∀ x ∈ g.rate_prob, 0 ≤ x)

/-- A configuration file with two servers, a load, 100 requests, a size distribution,
two fanout lines, a service line and a rate line. -/
def demo_config : List ConfigLine :=
  [ConfigLine.server 5001, ConfigLine.server 5002, ConfigLine.load true 800,
   ConfigLine.num_reqs 100, ConfigLine.req_size_dist, ConfigLine.fanout 1 50,
   ConfigLine.fanout 4 50, ConfigLine.service 46 100, ConfigLine.rate 0 100]

/-- A configuration file that asks for zero requests:
`server .. 5001`, `load 100Mbps`, `num_reqs 0`, `req_size_dist ..`. -/
def zero_reqs_config : List ConfigLine :=
  [ConfigLine.server 5001, ConfigLine.load true 800, ConfigLine.num_reqs 0,
   ConfigLine.req_size_dist]

/-- A client whose only connection is busy and whose `available_len` has wrapped to
4294967295 (the state `exit_connections` leaves when it reaches a busy node with
`available_len = 0`). -/
def demo_wrapped_client : Client :=
  { connection_lists := [{ nodes := [⟨true, true⟩], len := 1, available_len := 4294967295,
                           flow_finished := 0 }]
    global_flow_id := 1
    req_start_time := [⟨7, 0⟩]
    req_stop_time := [⟨0, 0⟩]
    flow_start_time := [⟨7, 0⟩]
    flow_stop_time := [⟨0, 0⟩] }

/-- The plan `set_req_variables` makes of `demo_samples` on two servers. -/
def demo_plan3 : Plan :=
  { num_server := 2, req_total_num := 3, flow_total_num := 6,
    req_size := [1000, 1000, 1000], req_fanout := [2, 1, 3], req_dscp := [5, 5, 5],
    req_rate := [0, 0, 0], req_sleep_us := [7, 7, 7],
    req_server_flow_count := [[1, 1], [0, 1], [2, 1]], server_flow_count := [3, 3],
    flow_req_id := [0, 0, 1, 2, 2, 2] }

/-- A run without aborts: the search returns the first idle nodes, no response arrives
before the last request is dispatched. -/
def demo_envs3 : Nat → IterEnv := fun i =>
  { req_tv_start := ⟨7 + i, 0⟩
    req_tv_end := ⟨7 + i, 50⟩
    env := { malloc_ok := true
             Insert_Conn_List := fun _ l _ => (false, l)
             Search_N_Conn_List := fun _ l n => spec_search l n
             start_now := ⟨7 + i, 10⟩
             flow_now := fun _ => ⟨7 + i, 20⟩ }
    listeners := [] }

/-- The client in front of `run_requests` for `demo_plan3`: two fresh pools of five
connections. -/
def demo_client3 : Client :=
  initial_client demo_plan3 [fresh_pool 5, fresh_pool 5] (fun _ => ⟨0, 0⟩) (fun _ => ⟨0, 0⟩)

/-- The globals `read_config` fills from `zero_reqs_config`. -/
def zero_reqs_globals : Config :=
  { num_server := 1, req_total_num := 0, fanout_size := [1], fanout_prob := [100],
    fanout_prob_total := 100, max_fanout_size := 1, service_dscp := [0], service_prob := [100],
    service_prob_total := 100, rate_value := [0], rate_prob := [100], rate_prob_total := 100,
    load_positive := true, period_us := 800 }

/-- The time between the two clock readings around `run_request`, in microseconds, as
the clock shows it: the value of
`(req_tv_end.tv_sec - req_tv_start.tv_sec) * 1000000 + req_tv_end.tv_usec - req_tv_start.tv_usec`
before it is stored in the `int req_duration_us`. -/
def elapsed_us (tv_start tv_end : timeval) : Int :=
  (tv_end.tv_sec - tv_start.tv_sec) * 1000000 + tv_end.tv_usec - tv_start.tv_usec

/-- Every request takes 3000 s to dispatch; no response arrives during the run. -/
def long_envs : Nat → IterEnv := fun _ =>
  { req_tv_start := ⟨7, 0⟩, req_tv_end := ⟨3007, 0⟩, env := demo_env, listeners := [] }

/-- A client whose single pool has counted 4294967295 finished flows; its connection is
busy with one more flow. -/
def demo_full_client : Client :=
  { connection_lists := [{ nodes := [⟨true, true⟩], len := 1, available_len := 0,
                           flow_finished := 4294967295 }]
    global_flow_id := 1
    req_start_time := [⟨7, 0⟩]
    req_stop_time := [⟨0, 0⟩]
    flow_start_time := [⟨7, 0⟩]
    flow_stop_time := [⟨0, 0⟩] }

/-! # Theorems -/

/-! ## Reading a list after one cell was changed -/

theorem getD_modify {α : Type} (f : α → α) (l : List α) (n m : Nat) (d : α) :
    (l.modify f n).getD m d = if n = m ∧ m < l.length then f (l.getD m d) else l.getD m d := by
  simp only [List.getD_eq_getElem?_getD, List.getElem?_modify]
  by_cases h : m < l.length
  · by_cases hn : n = m <;> simp [h, hn]
  · simp [h, List.getElem?_eq_none (not_lt.mp h)]

theorem list_modify_same (c : List Conn_List) (f : Conn_List → Conn_List) (s : Nat)
    (hs : s < c.length) : (c.modify f s).getD s default = f (c.getD s default) := by
  rw [getD_modify]; simp [hs]

theorem list_modify_other (c : List Conn_List) (f : Conn_List → Conn_List) (s s' : Nat)
    (hs : s' ≠ s) : (c.modify f s).getD s' default = c.getD s' default := by
  rw [getD_modify]
  have : ¬ (s = s' ∧ s' < c.length) := fun h => hs h.1.symm
  simp [this]

theorem node_modify_same (l : List Conn_Node) (f : Conn_Node → Conn_Node) (j : Nat)
    (hj : j < l.length) : (l.modify f j).getD j default = f (l.getD j default) := by
  rw [getD_modify]; simp [hj]

theorem node_modify_other (l : List Conn_Node) (f : Conn_Node → Conn_Node) (j j' : Nat)
    (hj : j' ≠ j) : (l.modify f j).getD j' default = l.getD j' default := by
  rw [getD_modify]
  have : ¬ (j = j' ∧ j' < l.length) := fun h => hj h.1.symm
  simp [this]

/-! ## C1: the count of idle connections -/

theorem countP_modify (p : Conn_Node → Bool) (f : Conn_Node → Conn_Node) (l : List Conn_Node) :
    ∀ j : Nat, j < l.length →
      List.countP p (l.modify f j) + (if p (l.getD j default) then 1 else 0)
        = List.countP p l + (if p (f (l.getD j default)) then 1 else 0) := by
  induction l with
  | nil => intro j hj; exact absurd hj (Nat.not_lt_zero j)
  | cons a l ih =>
    intro j hj
    cases j with
    | zero =>
      rw [List.modify_zero_cons, List.getD_cons_zero, List.countP_cons, List.countP_cons]
      omega
    | succ j =>
      have := ih j (by simpa using hj)
      rw [List.modify_succ_cons, List.getD_cons_succ, List.countP_cons, List.countP_cons]
      omega

theorem idle_count_modify (l : Conn_List) (f : Conn_Node → Conn_Node) (j : Nat)
    (hj : j < l.nodes.length) (before after : Bool)
    (h1 : (l.nodes.getD j default).idle = before)
    (h2 : (f (l.nodes.getD j default)).idle = after) :
    List.countP Conn_Node.idle (l.nodes.modify f j) + (if before then 1 else 0)
      = idle_count l + (if after then 1 else 0) := by
  have h := countP_modify Conn_Node.idle f l.nodes j hj
  rw [h1, h2] at h
  exact h

/-- The steps that keep `available_len` equal to the number of idle connections: a
`run_flow` on an idle connected node, a handled response (with or without the special
flow ID) on a busy connected node, and a listener exit on a busy node.  The exit of a
listener whose node is idle lowers the number of idle connections by one and leaves
`available_len` as it was. -/
theorem idle_count_steps (l : Conn_List) (j : Nat) (hj : j < l.nodes.length)
    (hinv : l.available_len = idle_count l) (hlen : l.nodes.length < 4294967296) :
    ((l.nodes.getD j default).connected = true → (l.nodes.getD j default).busy = false →
      (l.lease j).available_len = idle_count (l.lease j))
    ∧ ((l.nodes.getD j default).connected = true → (l.nodes.getD j default).busy = true →
      ∀ flow_id, flow_id ≠ 0 →
        (l.release j flow_id).available_len = idle_count (l.release j flow_id))
    ∧ ((l.nodes.getD j default).connected = true → (l.nodes.getD j default).busy = true →
      ((l.release j 0).retire j).available_len = idle_count ((l.release j 0).retire j))
    ∧ ((l.nodes.getD j default).busy = true →
      (l.retire j).available_len = idle_count (l.retire j))
    ∧ ((l.nodes.getD j default).connected = true → (l.nodes.getD j default).busy = false →
      (l.retire j).available_len = idle_count (l.retire j) + 1) := by
  have hle : idle_count l ≤ l.nodes.length := List.countP_le_length _
  refine ⟨?_, ?_, ?_, ?_, ?_⟩
  · intro hc hb
    have h := idle_count_modify l (fun n => { n with busy := true }) j hj true false
      (by unfold Conn_Node.idle; rw [hc, hb]; rfl) (by simp [Conn_Node.idle])
    have hgoal : idle_count (l.lease j)
        = List.countP Conn_Node.idle (l.nodes.modify (fun n => { n with busy := true }) j) := rfl
    have hav : (l.lease j).available_len = (l.available_len + 4294967295) % 4294967296 := rfl
    rw [hgoal, hav]
    simp only [if_true, Bool.false_eq_true, if_false] at h
    omega
  · intro hc hb flow_id hne
    have h := idle_count_modify l (fun n => { n with busy := false }) j hj false true
      (by unfold Conn_Node.idle; rw [hb]; simp)
      (by show ((l.nodes.getD j default).connected && !false) = true; rw [hc]; rfl)
    have hgoal : idle_count (l.release j flow_id)
        = List.countP Conn_Node.idle (l.nodes.modify (fun n => { n with busy := false }) j) := rfl
    have hav : (l.release j flow_id).available_len = (l.available_len + 1) % 4294967296 := by
      simp [Conn_List.release, hne]
    have hle' : List.countP Conn_Node.idle (l.nodes.modify (fun n => { n with busy := false }) j)
        ≤ l.nodes.length := by
      have := List.countP_le_length Conn_Node.idle
        (l := l.nodes.modify (fun n => { n with busy := false }) j)
      simpa using this
    rw [hgoal, hav]
    simp only [if_true, Bool.false_eq_true, if_false] at h
    omega
  · intro hc hb
    have hj' : j < (l.release j 0).nodes.length := by simpa [Conn_List.release] using hj
    have hnode : (l.release j 0).nodes.getD j default
        = { (l.nodes.getD j default) with busy := false } := by
      simp only [Conn_List.release]; exact node_modify_same _ _ _ hj
    have h1 := idle_count_modify l (fun n => { n with busy := false }) j hj false true
      (by unfold Conn_Node.idle; rw [hb]; simp)
      (by show ((l.nodes.getD j default).connected && !false) = true; rw [hc]; rfl)
    have h2 := idle_count_modify (l.release j 0)
      (fun _ => ({ connected := false, busy := false } : Conn_Node)) j hj' true false
      (by rw [hnode]; show ((l.nodes.getD j default).connected && !false) = true; rw [hc]; rfl)
      (by simp [Conn_Node.idle])
    have hmid : idle_count (l.release j 0)
        = List.countP Conn_Node.idle (l.nodes.modify (fun n => { n with busy := false }) j) := rfl
    have hgoal : idle_count ((l.release j 0).retire j)
        = List.countP Conn_Node.idle ((l.release j 0).nodes.modify
            (fun _ => ({ connected := false, busy := false } : Conn_Node)) j) := rfl
    have hav : ((l.release j 0).retire j).available_len = l.available_len := by
      simp [Conn_List.release, Conn_List.retire]
    rw [hgoal, hav]
    rw [hmid] at h2
    simp only [if_true, Bool.false_eq_true, if_false] at h1 h2
    omega
  · intro hb
    have h := idle_count_modify l (fun _ => ({ connected := false, busy := false } : Conn_Node))
      j hj false false (by unfold Conn_Node.idle; rw [hb]; simp) (by simp [Conn_Node.idle])
    have hgoal : idle_count (l.retire j)
        = List.countP Conn_Node.idle (l.nodes.modify
            (fun _ => ({ connected := false, busy := false } : Conn_Node)) j) := rfl
    have hav : (l.retire j).available_len = l.available_len := rfl
    rw [hgoal, hav]
    simp only [Bool.false_eq_true, if_false] at h
    omega
  · intro hc hb
    have h := idle_count_modify l (fun _ => ({ connected := false, busy := false } : Conn_Node))
      j hj true false (by unfold Conn_Node.idle; rw [hc, hb]; rfl) (by simp [Conn_Node.idle])
    have hgoal : idle_count (l.retire j)
        = List.countP Conn_Node.idle (l.nodes.modify
            (fun _ => ({ connected := false, busy := false } : Conn_Node)) j) := rfl
    have hav : (l.retire j).available_len = l.available_len := rfl
    rw [hgoal, hav]
    simp only [if_true, Bool.false_eq_true, if_false] at h
    omega

/-- C1 (the code departs from it): on a fresh pool of one connection, a listener that
leaves its loop on a short metadata read while the connection is idle sets
`connected=false` and leaves `available_len` at 1, although no node is
`connected && !busy` any more: the idle count is 0, and with 0 busy and 0 connected nodes
`available_len + busy = 1` differs from `connected = 0`.  Likewise, when
`exit_connections` reaches a connected node whose flow is still outstanding, `run_flow`
decrements `available_len` from 0 to 4294967295 while the number of idle nodes stays 0. -/
theorem C1_idle_listener_exit_overcounts :
    (demo_client.list 0 = fresh_pool 1
      ∧ (demo_client.list 0).available_len = idle_count (demo_client.list 0))
    ∧ ((listen_connection demo_plan demo_client 0 0 ReadResult.short_meta ⟨8, 0⟩ ⟨8, 0⟩).list 0
        = { nodes := [⟨false, false⟩], len := 1, available_len := 1, flow_finished := 0 }
      ∧ idle_count ((listen_connection demo_plan demo_client 0 0 ReadResult.short_meta
          ⟨8, 0⟩ ⟨8, 0⟩).list 0) = 0
      ∧ busy_count ((listen_connection demo_plan demo_client 0 0 ReadResult.short_meta
          ⟨8, 0⟩ ⟨8, 0⟩).list 0) = 0
      ∧ connected_count ((listen_connection demo_plan demo_client 0 0 ReadResult.short_meta
          ⟨8, 0⟩ ⟨8, 0⟩).list 0) = 0)
    ∧ ((run_request demo_plan demo_env demo_client 0).client.list 0
        = { nodes := [⟨true, true⟩], len := 1, available_len := 0, flow_finished := 0 }
      ∧ (exit_connections demo_plan (run_request demo_plan demo_env demo_client 0).client
          ⟨8, 0⟩).1.list 0
        = { nodes := [⟨true, true⟩], len := 1, available_len := 4294967295, flow_finished := 0 }
      ∧ idle_count ((exit_connections demo_plan
          (run_request demo_plan demo_env demo_client 0).client ⟨8, 0⟩).1.list 0) = 0) := by
  decide

/-! ## C9: what one handled response changes -/

/-- C9 as stated fails where the `unsigned int` counters wrap.  (a) `run_request` sends
flow 1 of `demo_plan` on the single connection (`available_len` 1 to 0, node busy);
`exit_connections` then sends the terminator on the same busy node and `run_flow` takes
`available_len` from 0 to 4294967295; the response to flow 1 (`flow_id = 1`), handled on
the still connected node, takes `available_len` from 4294967295 to 0 instead of raising
it by 1.  (b) In a pool that has counted 4294967295 finished flows, a response with
`flow_id = 1` takes `flow_finished` to 0, so `flow_finished` decreases. -/
theorem C9_wrapped_counter_counterexample :
    ((run_request demo_plan demo_env demo_client 0).client.list 0).available_len = 0
    ∧ ((exit_connections demo_plan (run_request demo_plan demo_env demo_client 0).client
          ⟨8, 0⟩).1.list 0).available_len = 4294967295
    ∧ ((exit_connections demo_plan (run_request demo_plan demo_env demo_client 0).client
          ⟨8, 0⟩).1.node 0 0).connected = true
    ∧ u32_at (fill_meta_data ⟨0, 0, 1, 100, 0, 0⟩) 0 = 1
    ∧ ((listen_connection demo_plan
          (exit_connections demo_plan (run_request demo_plan demo_env demo_client 0).client
            ⟨8, 0⟩).1
          0 0 (ReadResult.ok (fill_meta_data ⟨0, 0, 1, 100, 0, 0⟩)) ⟨9, 0⟩ ⟨9, 1⟩).list
        0).available_len = 0
    ∧ (demo_full_client.node 0 0).connected = true
    ∧ (demo_full_client.list 0).flow_finished = 4294967295
    ∧ ((listen_connection demo_plan demo_full_client 0 0
          (ReadResult.ok (fill_meta_data ⟨0, 0, 1, 100, 0, 0⟩)) ⟨9, 0⟩ ⟨9, 1⟩).list
        0).flow_finished = 0 := by
  decide

/-- C9 (amended): when `listen_connection` handles a well-formed response on the
connected node (`s`, `j`): with `flow_id != 0` the node ends with `busy=false`,
`connected=true`, and `available_len` and `flow_finished` each grow by 1 modulo 2^32, that
is by exactly 1 unless the counter was 4294967295; with `flow_id = 0` the node ends with
`connected=false`, `busy=false` and both counters are unchanged.  In both cases `len` is
unchanged, every other node keeps its flags, every other list is unchanged, and no
`flow_finished` decreases, except that of list `s` when `flow_id != 0` and it was
4294967295. -/
theorem C9_response_effect (plan : Plan) (c : Client) (s j : Nat) (read_buf : List Nat)
    (t_flow t_req : timeval)
    (hs : s < c.connection_lists.length) (hj : j < (c.list s).nodes.length)
    (hc : (c.node s j).connected = true) :
    (u32_at read_buf 0 ≠ 0 →
      ((listen_connection plan c s j (ReadResult.ok read_buf) t_flow t_req).node s j).busy = false
      ∧ ((listen_connection plan c s j (ReadResult.ok read_buf) t_flow t_req).node s j).connected
          = true
      ∧ ((listen_connection plan c s j (ReadResult.ok read_buf) t_flow t_req).list s).available_len
          = ((c.list s).available_len + 1) % 4294967296
      ∧ ((listen_connection plan c s j (ReadResult.ok read_buf) t_flow t_req).list s).flow_finished
          = ((c.list s).flow_finished + 1) % 4294967296
      ∧ ((c.list s).available_len < 4294967295 →
          ((listen_connection plan c s j (ReadResult.ok read_buf) t_flow t_req).list
              s).available_len
            = (c.list s).available_len + 1)
      ∧ ((c.list s).flow_finished < 4294967295 →
          ((listen_connection plan c s j (ReadResult.ok read_buf) t_flow t_req).list
              s).flow_finished
            = (c.list s).flow_finished + 1))
    ∧ (u32_at read_buf 0 = 0 →
      ((listen_connection plan c s j (ReadResult.ok read_buf) t_flow t_req).node s j).busy = false
      ∧ ((listen_connection plan c s j (ReadResult.ok read_buf) t_flow t_req).node s j).connected
          = false
      ∧ ((listen_connection plan c s j (ReadResult.ok read_buf) t_flow t_req).list s).available_len
          = (c.list s).available_len
      ∧ ((listen_connection plan c s j (ReadResult.ok read_buf) t_flow t_req).list s).flow_finished
          = (c.list s).flow_finished)
    ∧ ((listen_connection plan c s j (ReadResult.ok read_buf) t_flow t_req).list s).len
        = (c.list s).len
    ∧ ((listen_connection plan c s j (ReadResult.ok read_buf) t_flow t_req).list s).nodes.length
        = (c.list s).nodes.length
    ∧ (∀ j', j' ≠ j →
        (listen_connection plan c s j (ReadResult.ok read_buf) t_flow t_req).node s j'
          = c.node s j')
    ∧ (∀ s', s' ≠ s →
        (listen_connection plan c s j (ReadResult.ok read_buf) t_flow t_req).list s' = c.list s')
    ∧ (∀ s', (s' = s → u32_at read_buf 0 ≠ 0 → (c.list s).flow_finished < 4294967295) →
        (c.list s').flow_finished
          ≤ ((listen_connection plan c s j (ReadResult.ok read_buf) t_flow t_req).list
              s').flow_finished)
    := by
  by_cases h0 : u32_at read_buf 0 = 0
  · -- terminator response
    have hlist : (listen_connection plan c s j (ReadResult.ok read_buf) t_flow t_req).list s
        = ((c.list s).release j 0).retire j := by
      simp only [listen_connection, h0, Client.list, if_true]
      rw [list_modify_same _ _ _ (by simpa using hs), list_modify_same _ _ _ hs]
    have hother : ∀ s', s' ≠ s →
        (listen_connection plan c s j (ReadResult.ok read_buf) t_flow t_req).list s'
          = c.list s' := by
      intro s' hne
      simp only [listen_connection, h0, Client.list, if_true]
      rw [list_modify_other _ _ _ _ hne, list_modify_other _ _ _ _ hne]
    have hjl : j < ((c.list s).release j 0).nodes.length := by
      simpa [Conn_List.release] using hj
    refine ⟨fun h => absurd h0 h, fun _ => ?_, ?_, ?_, ?_, hother, ?_⟩
    · simp only [Client.node, hlist]
      refine ⟨?_, ?_, ?_, ?_⟩
      · simp only [Conn_List.retire]; rw [node_modify_same _ _ _ hjl]
      · simp only [Conn_List.retire]; rw [node_modify_same _ _ _ hjl]
      · simp [Conn_List.retire, Conn_List.release]
      · simp [Conn_List.retire, Conn_List.release]
    · rw [hlist]; simp [Conn_List.retire, Conn_List.release]
    · rw [hlist]; simp [Conn_List.retire, Conn_List.release]
    · intro j' hne
      simp only [Client.node, hlist, Conn_List.retire, Conn_List.release]
      rw [node_modify_other _ _ _ _ hne, node_modify_other _ _ _ _ hne]
    · intro s' _
      by_cases hss : s' = s
      · subst hss; rw [hlist]; simp [Conn_List.retire, Conn_List.release]
      · rw [hother s' hss]
  · -- response to a flow of a request
    have hlist : (listen_connection plan c s j (ReadResult.ok read_buf) t_flow t_req).list s
        = (c.list s).release j (u32_at read_buf 0) := by
      simp only [listen_connection, h0, Client.list, if_false]
      rw [list_modify_same _ _ _ hs]
    have hother : ∀ s', s' ≠ s →
        (listen_connection plan c s j (ReadResult.ok read_buf) t_flow t_req).list s'
          = c.list s' := by
      intro s' hne
      simp only [listen_connection, h0, Client.list, if_false]
      rw [list_modify_other _ _ _ _ hne]
    have hav : ((c.list s).release j (u32_at read_buf 0)).available_len
        = ((c.list s).available_len + 1) % 4294967296 := by
      simp [Conn_List.release, h0]
    have hff : ((c.list s).release j (u32_at read_buf 0)).flow_finished
        = ((c.list s).flow_finished + 1) % 4294967296 := by
      simp [Conn_List.release, h0]
    refine ⟨fun _ => ?_, fun h => absurd h h0, ?_, ?_, ?_, hother, ?_⟩
    · simp only [Client.node, hlist]
      refine ⟨?_, ?_, hav, hff, ?_, ?_⟩
      · simp only [Conn_List.release]; rw [node_modify_same _ _ _ hj]
      · simp only [Conn_List.release]; rw [node_modify_same _ _ _ hj]
        exact hc
      · intro hlt
        rw [hav]
        exact Nat.mod_eq_of_lt (by omega)
      · intro hlt
        rw [hff]
        exact Nat.mod_eq_of_lt (by omega)
    · rw [hlist]; simp [Conn_List.release]
    · rw [hlist]; simp [Conn_List.release]
    · intro j' hne
      simp only [Client.node, hlist, Conn_List.release]
      rw [node_modify_other _ _ _ _ hne]
    · intro s' hcond
      by_cases hss : s' = s
      · subst hss
        have hlt := hcond rfl h0
        rw [hlist, hff, Nat.mod_eq_of_lt (by omega)]
        omega
      · rw [hother s' hss]

/-- Witness of `C9_response_effect`: the response to flow 1 on the single busy connection
raises `available_len` from 0 to 1. -/
theorem C9_response_effect_witness :
    ((listen_connection demo_plan demo_busy_client 0 0
        (ReadResult.ok (fill_meta_data ⟨0, 0, 1, 100, 0, 0⟩)) ⟨9, 0⟩ ⟨9, 1⟩).list 0).available_len
      = (demo_busy_client.list 0).available_len + 1 :=
  ((C9_response_effect demo_plan demo_busy_client 0 0 (fill_meta_data ⟨0, 0, 1, 100, 0, 0⟩)
      ⟨9, 0⟩ ⟨9, 1⟩ (by decide) (by decide) (by decide)).1
    (by decide)).2.2.2.2.1 (by decide)

/-! ## C10: the terminator walk -/

theorem run_flow_list (c : Client) (f : Flow) (now : timeval) (s : Nat) :
    (run_flow c f now).1.list s
      = if f.server = s ∧ s < c.connection_lists.length then (c.list s).lease f.node
        else c.list s := by
  unfold run_flow Client.list
  by_cases h : f.flow_id ≠ 0
  · simp only [if_pos h]; rw [getD_modify]
  · simp only [if_neg h]; rw [getD_modify]

theorem run_flow_same_connected (c : Client) (s j : Nat) (now : timeval) :
    same_connected c (exit_connection c s j now).1 := by
  refine ⟨?_, ?_, ?_⟩
  · intro s' j'
    simp only [Client.node, exit_connection, run_flow_list]
    split
    · simp only [Conn_List.lease, getD_modify]
      split <;> rfl
    · rfl
  · intro s'
    simp only [exit_connection, run_flow_list]
    split
    · simp [Conn_List.lease]
    · rfl
  · simp [exit_connection, run_flow]

theorem same_connected_refl (c : Client) : same_connected c c :=
  ⟨fun _ _ => rfl, fun _ => rfl, rfl⟩

theorem same_connected_trans {a b c : Client} (h1 : same_connected a b)
    (h2 : same_connected b c) : same_connected a c :=
  ⟨fun s j => (h2.1 s j).trans (h1.1 s j), fun s => (h2.2.1 s).trans (h1.2.1 s),
   h2.2.2.trans h1.2.2⟩

theorem terminators_of_congr {c c' : Client} (h : same_connected c c') (s : Nat) :
    terminators_of c' s = terminators_of c s := by
  unfold terminators_of
  rw [h.2.1 s]
  congr 1
  apply List.filter_congr
  intro j _
  rw [h.1 s j]

theorem exit_connection_sent (c : Client) (s j : Nat) (now : timeval) :
    (exit_connection c s j now).2 = { server := s, node := j, buf := terminator_buf } := by
  simp [exit_connection, run_flow, fill_meta_data, u32_bytes, terminator_buf]

theorem exit_nodes_spec (s : Nat) (now : timeval) (js : List Nat) :
    ∀ (c0 c : Client) (out : List Sent), same_connected c0 c →
      (exit_nodes s now js (c, out)).2
          = out ++ (js.filter (fun j => (c0.node s j).connected)).map
              (fun j => { server := s, node := j, buf := terminator_buf })
        ∧ same_connected c0 (exit_nodes s now js (c, out)).1 := by
  induction js with
  | nil => intro c0 c out h; simp [exit_nodes, h]
  | cons j js ih =>
    intro c0 c out h
    by_cases hc : (c.node s j).connected = true
    · have hc0 : (c0.node s j).connected = true := by rw [← h.1 s j]; exact hc
      have hstep := ih c0 (exit_connection c s j now).1 (out ++ [(exit_connection c s j now).2])
        (same_connected_trans h (run_flow_same_connected c s j now))
      rw [exit_nodes, if_pos hc]
      refine ⟨?_, hstep.2⟩
      rw [hstep.1, exit_connection_sent]
      simp [List.filter_cons, hc0]
    · have hc0 : ¬ (c0.node s j).connected = true := by rw [← h.1 s j]; exact hc
      have hstep := ih c0 c out h
      rw [exit_nodes, if_neg hc]
      refine ⟨?_, hstep.2⟩
      rw [hstep.1]
      simp [List.filter_cons, hc0]

theorem exit_servers_spec (now : timeval) (ss : List Nat) :
    ∀ (c0 c : Client) (out : List Sent), same_connected c0 c →
      (exit_servers now ss (c, out)).2 = out ++ ss.flatMap (terminators_of c0)
        ∧ same_connected c0 (exit_servers now ss (c, out)).1 := by
  induction ss with
  | nil => intro c0 c out h; simp [exit_servers, h]
  | cons s ss ih =>
    intro c0 c out h
    have hn := exit_nodes_spec s now (List.range (c.list s).nodes.length) c0 c out h
    have hstep := ih c0 (exit_nodes s now (List.range (c.list s).nodes.length) (c, out)).1
      (exit_nodes s now (List.range (c.list s).nodes.length) (c, out)).2 hn.2
    simp only [exit_servers]
    refine ⟨?_, hstep.2⟩
    rw [hstep.1, hn.1, h.2.1 s]
    simp [terminators_of, List.flatMap_cons]

theorem terminators_of_server (c : Client) (s : Nat) (w : Sent) (hw : w ∈ terminators_of c s) :
    w.server = s := by
  simp only [terminators_of, List.mem_map] at hw
  obtain ⟨j, _, rfl⟩ := hw
  rfl

theorem terminators_of_nodup (c : Client) (s : Nat) : (terminators_of c s).Nodup := by
  unfold terminators_of
  refine List.Nodup.map ?_ (List.Nodup.filter _ (List.nodup_range _))
  intro a b hab
  simpa using congrArg Sent.node hab

theorem all_terminators_nodup (c : Client) (n : Nat) :
    ((List.range n).flatMap (terminators_of c)).Nodup := by
  rw [List.nodup_flatMap]
  refine ⟨fun s _ => terminators_of_nodup c s, ?_⟩
  refine List.Pairwise.imp_of_mem ?_ (List.nodup_range n)
  intro a b _ _ hab
  intro w hwa hwb
  exact hab ((terminators_of_server c a w hwa).symm.trans (terminators_of_server c b w hwb))

theorem mem_all_terminators (c : Client) (n s j : Nat) (b : List Nat) :
    ({ server := s, node := j, buf := b } : Sent) ∈ (List.range n).flatMap (terminators_of c)
      ↔ s < n ∧ j < (c.list s).nodes.length ∧ (c.node s j).connected = true
          ∧ b = terminator_buf := by
  simp only [List.mem_flatMap, List.mem_range, terminators_of, List.mem_map, List.mem_filter]
  constructor
  · rintro ⟨s', hs', j', ⟨hj', hc⟩, heq⟩
    injection heq with h1 h2 h3
    subst h1; subst h2
    exact ⟨hs', hj', hc, h3.symm⟩
  · rintro ⟨hs, hj, hc, hb⟩
    exact ⟨s, hs, j, ⟨hj, hc⟩, by rw [hb]⟩

theorem filter_range_length {α : Type} (p : α → Bool) (d : α) (l : List α) :
    ((List.range l.length).filter (fun j => p (l.getD j d))).length = l.countP p := by
  have hmap : (List.range l.length).map (fun j => l.getD j d) = l := by
    apply List.ext_getElem
    · simp
    · intro i h1 h2
      simp only [List.getElem_map, List.getElem_range]
      exact List.getD_eq_getElem l d h2
  conv_rhs => rw [← hmap]
  rw [List.countP_map, List.countP_eq_length_filter]
  rfl

theorem terminators_of_length (c : Client) (s : Nat) :
    (terminators_of c s).length = connected_count (c.list s) := by
  unfold terminators_of connected_count Client.node
  rw [List.length_map]
  exact filter_range_length (fun n => n.connected) default (c.list s).nodes

theorem server_terminators_length (c : Client) (n s : Nat) (hs : s < n) :
    (((List.range n).flatMap (terminators_of c)).filter (fun w => w.server = s)).length
      = connected_count (c.list s) := by
  induction n with
  | zero => exact absurd hs (Nat.not_lt_zero s)
  | succ n ih =>
    rw [List.range_succ, List.flatMap_append, List.filter_append, List.length_append]
    simp only [List.flatMap_cons, List.flatMap_nil, List.append_nil]
    by_cases hsn : s < n
    · have hnone : (terminators_of c n).filter (fun w => w.server = s) = [] := by
        rw [List.filter_eq_nil_iff]
        intro w hw
        have := terminators_of_server c n w hw
        simp only [decide_eq_true_eq]
        omega
      rw [ih hsn, hnone]; rfl
    · have hsn' : s = n := by omega
      subst hsn'
      have hnone : ((List.range s).flatMap (terminators_of c)).filter (fun w => w.server = s)
          = [] := by
        rw [List.filter_eq_nil_iff]
        intro w hw
        simp only [List.mem_flatMap, List.mem_range] at hw
        obtain ⟨a, ha, hwa⟩ := hw
        have := terminators_of_server c a w hwa
        simp only [decide_eq_true_eq]
        omega
      have hall : (terminators_of c s).filter (fun w => w.server = s) = terminators_of c s := by
        rw [List.filter_eq_self]
        intro w hw
        simpa using terminators_of_server c s w hw
      rw [hnone, hall, terminators_of_length]
      simp

/-- C10: for every state of the pools, the buffers `exit_connections` writes are, server
by server in index order and node by node in list order, one terminator descriptor for
each node whose `connected` flag is set and none for any other node; the descriptor
holds the words (0, 100, 0, 0); `flow_start_time` is left as it was.  Each node
therefore gets exactly one descriptor when it is connected and none otherwise, a list
receives as many descriptors as it has connected nodes, and a fresh pool of `n`
connections receives exactly `n`. -/
theorem C10_exit_connections_terminators (plan : Plan) (c : Client) (now : timeval) :
    (exit_connections plan c now).2 = (List.range plan.num_server).flatMap (terminators_of c)
    ∧ (u32_at terminator_buf 0 = 0 ∧ u32_at terminator_buf 4 = 100
        ∧ u32_at terminator_buf 8 = 0 ∧ u32_at terminator_buf 12 = 0
        ∧ terminator_buf = fill_meta_data ⟨0, 0, 0, 100, 0, 0⟩)
    ∧ (exit_connections plan c now).1.flow_start_time = c.flow_start_time
    ∧ (∀ s j b, List.count ({ server := s, node := j, buf := b } : Sent)
          (exit_connections plan c now).2
        = if s < plan.num_server ∧ j < (c.list s).nodes.length ∧ (c.node s j).connected = true
              ∧ b = terminator_buf then 1 else 0)
    ∧ (∀ s, s < plan.num_server →
        ((exit_connections plan c now).2.filter (fun w => w.server = s)).length
          = connected_count (c.list s))
    ∧ (∀ s n, s < plan.num_server → c.list s = fresh_pool n →
        ((exit_connections plan c now).2.filter (fun w => w.server = s)).length = n) := by
  have hspec := exit_servers_spec now (List.range plan.num_server) c c [] (same_connected_refl c)
  have hsent : (exit_connections plan c now).2
      = (List.range plan.num_server).flatMap (terminators_of c) := by
    simpa [exit_connections] using hspec.1
  refine ⟨hsent, by decide, hspec.2.2.2, ?_, ?_, ?_⟩
  · intro s j b
    rw [hsent, List.count_eq_of_nodup (all_terminators_nodup c plan.num_server)]
    simp only [mem_all_terminators]
  · intro s hs
    rw [hsent]
    exact server_terminators_length c plan.num_server s hs
  · intro s n hs hfresh
    rw [hsent, server_terminators_length c plan.num_server s hs, hfresh]
    simp only [connected_count, fresh_pool]
    rw [List.countP_eq_length.mpr]
    · simp
    · intro a ha
      rw [List.eq_of_mem_replicate ha]

/-- Witness of `C10_exit_connections_terminators`: a fresh pool of four connections and no
request issued gets four terminator descriptors. -/
theorem C10_exit_connections_terminators_witness :
    ((exit_connections demo_plan ⟨[fresh_pool 4], 0, [], [], [], []⟩ ⟨9, 0⟩).2.filter
        (fun w => w.server = 0)).length = 4 :=
  (C10_exit_connections_terminators demo_plan ⟨[fresh_pool 4], 0, [], [], [], []⟩
    ⟨9, 0⟩).2.2.2.2.2 0 4 (by decide) (by decide)

/-! ## C5: the fields of a flow plan -/

theorem assign_flows_fields (plan : Plan) (req_id s : Nat) (conn : List Nat) (n : Nat) :
    ∀ (k : Nat) (fl : List Flow) (g : Int), (∀ f ∈ fl, flow_fields plan req_id f) →
      ∀ f ∈ (assign_flows plan req_id s conn n k (fl, g)).1, flow_fields plan req_id f := by
  induction n with
  | zero => intro k fl g h; simpa [assign_flows] using h
  | succ n ih =>
    intro k fl g h
    rw [assign_flows]
    apply ih
    intro f hf
    rcases List.mem_append.mp hf with hf | hf
    · exact h f hf
    · rw [List.mem_singleton] at hf
      subst hf
      exact ⟨rfl, rfl, rfl⟩

theorem run_request_loop_fields (plan : Plan) (env : ReqEnv) (req_id : Nat) (servers : List Nat) :
    ∀ a : ReqAcc, (∀ f ∈ a.flow_req, flow_fields plan req_id f) →
      ∀ f ∈ (run_request_loop plan env req_id servers a).1.flow_req,
        flow_fields plan req_id f := by
  induction servers with
  | nil => intro a h; simpa [run_request_loop] using h
  | cons i rest ih =>
    intro a h
    rw [run_request_loop]
    simp only
    split
    · exact ih a h
    · split
      · split
        · simpa using h
        · split
          · simpa using h
          · apply ih
            apply assign_flows_fields
            simpa using h
      · split
        · simpa using h
        · split
          · simpa using h
          · apply ih
            apply assign_flows_fields
            simpa using h

theorem run_request_flow_req (plan : Plan) (env : ReqEnv) (c : Client) (req_id : Nat) :
    (run_request plan env c req_id).flow_req
      = if env.malloc_ok = false then []
        else (run_request_loop plan env req_id (List.range plan.num_server)
                { client := c, flow_req := [], inserted := [] }).1.flow_req := by
  unfold run_request
  simp only
  split_ifs <;> rfl

theorem run_request_fields (plan : Plan) (env : ReqEnv) (c : Client) (req_id : Nat) :
    ∀ f ∈ (run_request plan env c req_id).flow_req, flow_fields plan req_id f := by
  have h := run_request_loop_fields plan env req_id (List.range plan.num_server)
    { client := c, flow_req := [], inserted := [] } (by simp)
  rw [run_request_flow_req]
  split
  · simp
  · exact h

/-- C5: every flow plan that `run_request` builds for request `req_id` (size, fanout,
DSCP and rate of the request being in the ranges the configuration allows) has
`flow_size = req_size / req_fanout` (integer division), `flow_rate = req_rate` and
`flow_tos = 4 * req_dscp = req_dscp << 2`; this tos is at most 252, has its two low bits
clear, and `tos >> 2` is the DSCP again. -/
theorem C5_flow_plan_fields (plan : Plan) (env : ReqEnv) (c : Client) (req_id : Nat) (f : Flow)
    (hf : f ∈ (run_request plan env c req_id).flow_req)
    (hsize : 0 ≤ plan.req_size.getD req_id 0 ∧ plan.req_size.getD req_id 0 < 2147483648)
    (hfan : 1 ≤ plan.req_fanout.getD req_id 0)
    (hdscp : 0 ≤ plan.req_dscp.getD req_id 0 ∧ plan.req_dscp.getD req_id 0 < 64)
    (hrate : 0 ≤ plan.req_rate.getD req_id 0 ∧ plan.req_rate.getD req_id 0 < 2147483648) :
    (f.flow_size : Int) = Int.tdiv (plan.req_size.getD req_id 0) (plan.req_fanout.getD req_id 0)
    ∧ (f.flow_size : Int) = plan.req_size.getD req_id 0 / plan.req_fanout.getD req_id 0
    ∧ (f.flow_rate : Int) = plan.req_rate.getD req_id 0
    ∧ (f.flow_tos : Int) = 4 * plan.req_dscp.getD req_id 0
    ∧ f.flow_tos = (plan.req_dscp.getD req_id 0).toNat <<< 2
    ∧ f.flow_tos ≤ 252
    ∧ f.flow_tos % 4 = 0
    ∧ f.flow_tos >>> 2 = (plan.req_dscp.getD req_id 0).toNat := by
  obtain ⟨h1, h2, h3⟩ := run_request_fields plan env c req_id f hf
  have hdiv : Int.tdiv (plan.req_size.getD req_id 0) (plan.req_fanout.getD req_id 0)
      = plan.req_size.getD req_id 0 / plan.req_fanout.getD req_id 0 :=
    Int.tdiv_eq_ediv hsize.1 (by omega)
  have hq0 : 0 ≤ plan.req_size.getD req_id 0 / plan.req_fanout.getD req_id 0 :=
    Int.ediv_nonneg hsize.1 (by omega)
  have hq1 : plan.req_size.getD req_id 0 / plan.req_fanout.getD req_id 0
      ≤ plan.req_size.getD req_id 0 :=
    Int.ediv_le_self _ hsize.1
  have htos : f.flow_tos = 4 * (plan.req_dscp.getD req_id 0).toNat := by
    rw [h2]; unfold toU32 wrapI32; omega
  refine ⟨?_, ?_, ?_, ?_, ?_, ?_, ?_, ?_⟩
  · rw [h1, hdiv]; unfold toU32; omega
  · rw [h1, hdiv]; unfold toU32; omega
  · rw [h3]; unfold toU32; omega
  · rw [htos]; omega
  · rw [htos, Nat.shiftLeft_eq]; omega
  · rw [htos]; omega
  · rw [htos]; omega
  · rw [htos, Nat.shiftRight_eq_div_pow]; omega

/-- Witness of `C5_flow_plan_fields`: the single flow of the single request of `demo_plan`. -/
theorem C5_flow_plan_fields_witness :
    (⟨0, 0, 1, 100, 0, 0⟩ : Flow) ∈ (run_request demo_plan demo_env demo_client 0).flow_req
    ∧ ((⟨0, 0, 1, 100, 0, 0⟩ : Flow).flow_size : Int) = Int.tdiv 100 1 :=
  ⟨by decide,
   (C5_flow_plan_fields demo_plan demo_env demo_client 0 ⟨0, 0, 1, 100, 0, 0⟩
    (by decide) (by decide) (by decide) (by decide) (by decide)).1⟩

/-! ## C6: the flow ids of a run -/

theorem wrapI32_succ (x : Int) : wrapI32 (wrapI32 x + 1) = wrapI32 (x + 1) := by
  unfold wrapI32; omega

theorem toU32_wrapI32_succ (m : Nat) :
    toU32 (wrapI32 (wrapI32 (m : Int) + 1)) = (m + 1) % 4294967296 := by
  unfold toU32 wrapI32; omega

theorem assign_flows_ids (plan : Plan) (req_id s : Nat) (conn : List Nat) (n : Nat) :
    ∀ (k : Nat) (fl : List Flow) (g : Int) (N : Nat), g = wrapI32 (N : Int) →
      (assign_flows plan req_id s conn n k (fl, g)).2 = wrapI32 ((N + n : Nat) : Int)
      ∧ (assign_flows plan req_id s conn n k (fl, g)).1.map Flow.flow_id
          = fl.map Flow.flow_id ++ (List.range' N n).map (fun m => (m + 1) % 4294967296)
      ∧ (assign_flows plan req_id s conn n k (fl, g)).1.length = fl.length + n := by
  induction n with
  | zero => intro k fl g N hg; simp [assign_flows, hg]
  | succ n ih =>
    intro k fl g N hg
    rw [assign_flows]
    have hg' : wrapI32 (g + 1) = wrapI32 ((N + 1 : Nat) : Int) := by
      rw [hg, wrapI32_succ]; rfl
    obtain ⟨h1, h2, h3⟩ := ih (k + 1) (fl ++ [make_flow plan req_id s conn k g])
      (wrapI32 (g + 1)) (N + 1) hg'
    refine ⟨?_, ?_, ?_⟩
    · rw [h1]; congr 2; omega
    · rw [h2, List.range'_succ]
      simp only [List.map_append, List.map_cons, List.map_nil, List.append_assoc,
        List.singleton_append, make_flow]
      rw [hg, toU32_wrapI32_succ]
    · rw [h3]; simp; omega

theorem ids_ok_extend (N0 : Nat) (a : ReqAcc) (c1 : Client) (fl : List Flow) (g : Int) (n : Nat)
    (h : ids_ok N0 a)
    (hg : g = wrapI32 ((N0 + a.flow_req.length + n : Nat) : Int))
    (hids : fl.map Flow.flow_id = a.flow_req.map Flow.flow_id
      ++ (List.range' (N0 + a.flow_req.length) n).map (fun m => (m + 1) % 4294967296))
    (hlen : fl.length = a.flow_req.length + n) :
    ids_ok N0 { a with client := { c1 with global_flow_id := g }, flow_req := fl } := by
  refine ⟨?_, ?_⟩
  · simp only [hg, hlen]; congr 2; omega
  · simp only [hids, hlen, h.2]
    rw [← List.map_append, List.range'_append_1, Nat.add_comm n a.flow_req.length]

theorem run_request_loop_ids (plan : Plan) (env : ReqEnv) (req_id N0 : Nat) (servers : List Nat) :
    ∀ a : ReqAcc, ids_ok N0 a → ids_ok N0 (run_request_loop plan env req_id servers a).1 := by
  induction servers with
  | nil => intro a h; simpa [run_request_loop] using h
  | cons i rest ih =>
    intro a h
    rw [run_request_loop]
    simp only
    split
    · exact ih a h
    · split
      · split
        · exact h
        · split
          · exact h
          · apply ih
            rename_i conn _
            obtain ⟨h1, h2, h3⟩ := assign_flows_ids plan req_id i conn
              ((plan.req_server_flow_count.getD req_id []).getD i 0).toNat 0 a.flow_req
              a.client.global_flow_id (N0 + a.flow_req.length) h.1
            exact ids_ok_extend N0 a _ _ _ _ h h1 h2 h3
      · split
        · exact h
        · split
          · exact h
          · apply ih
            rename_i conn _
            obtain ⟨h1, h2, h3⟩ := assign_flows_ids plan req_id i conn
              ((plan.req_server_flow_count.getD req_id []).getD i 0).toNat 0 a.flow_req
              a.client.global_flow_id (N0 + a.flow_req.length) h.1
            exact ids_ok_extend N0 a _ _ _ _ h h1 h2 h3

theorem run_flow_global_flow_id (c : Client) (f : Flow) (now : timeval) :
    (run_flow c f now).1.global_flow_id = c.global_flow_id := by
  unfold run_flow
  by_cases h : f.flow_id ≠ 0
  · simp only [if_pos h]
  · simp only [if_neg h]

theorem run_flows_global_flow_id (env : ReqEnv) (fs : List Flow) :
    ∀ (i : Nat) (c : Client) (out : List Sent),
      (run_flows env fs i (c, out)).1.global_flow_id = c.global_flow_id := by
  induction fs with
  | nil => intro i c out; rfl
  | cons f fs ih =>
    intro i c out
    rw [run_flows, ih, run_flow_global_flow_id]

theorem listen_connection_global_flow_id (plan : Plan) (c : Client) (s j : Nat) (r : ReadResult)
    (t_flow t_req : timeval) :
    (listen_connection plan c s j r t_flow t_req).global_flow_id = c.global_flow_id := by
  cases r with
  | short_meta => rfl
  | short_payload b => rfl
  | ok b =>
    by_cases h : u32_at b 0 = 0
    · simp only [listen_connection, h, if_true]
    · simp only [listen_connection, h, if_false]

theorem listen_all_global_flow_id (plan : Plan) (evs : List ListenEv) :
    ∀ c : Client, (listen_all plan c evs).global_flow_id = c.global_flow_id := by
  induction evs with
  | nil => intro c; rfl
  | cons e evs ih =>
    intro c
    unfold listen_all at ih ⊢
    rw [List.foldl_cons, ih, listen_connection_global_flow_id]

theorem run_request_global_flow_id (plan : Plan) (env : ReqEnv) (c : Client) (req_id : Nat) :
    (run_request plan env c req_id).client.global_flow_id
      = if env.malloc_ok = false then c.global_flow_id
        else (run_request_loop plan env req_id (List.range plan.num_server)
                { client := c, flow_req := [], inserted := [] }).1.client.global_flow_id := by
  unfold run_request
  simp only
  split_ifs
  · rfl
  · rfl
  · rfl
  · simp only [run_flows_global_flow_id]

theorem run_request_ids (plan : Plan) (env : ReqEnv) (c : Client) (req_id N0 : Nat)
    (hg : c.global_flow_id = wrapI32 (N0 : Int)) :
    (run_request plan env c req_id).client.global_flow_id
        = wrapI32 ((N0 + (run_request plan env c req_id).flow_req.length : Nat) : Int)
    ∧ (run_request plan env c req_id).flow_req.map Flow.flow_id
        = (List.range' N0 (run_request plan env c req_id).flow_req.length).map
            (fun m => (m + 1) % 4294967296) := by
  have h := run_request_loop_ids plan env req_id N0 (List.range plan.num_server)
    { client := c, flow_req := [], inserted := [] } ⟨by simpa using hg, by simp⟩
  rw [run_request_global_flow_id, run_request_flow_req]
  split
  · simpa using hg
  · exact h

theorem run_requests_loop_ids (plan : Plan) (usleep_overhead_us : Int) (envs : Nat → IterEnv)
    (n : Nat) :
    ∀ (i : Nat) (c : Client) (s : Int) (N0 : Nat), c.global_flow_id = wrapI32 (N0 : Int) →
      assigned_ids (run_requests_loop plan usleep_overhead_us envs n i c s).1
        = (List.range' N0
            (assigned_ids (run_requests_loop plan usleep_overhead_us envs n i c s).1).length).map
              (fun m => (m + 1) % 4294967296) := by
  induction n with
  | zero => intro i c s N0 _; simp [run_requests_loop, assigned_ids]
  | succ n ih =>
    intro i c s N0 hg
    rw [run_requests_loop]
    simp only
    obtain ⟨h1, h2⟩ := run_request_ids plan (envs i).env c i N0 hg
    have hrest := ih (i + 1)
      (listen_all plan (run_request plan (envs i).env c i).client (envs i).listeners)
      (pace usleep_overhead_us s (plan.req_sleep_us.getD i 0)
        (duration_us (envs i).req_tv_start (envs i).req_tv_end)).1
      (N0 + (run_request plan (envs i).env c i).flow_req.length)
      (by rw [listen_all_global_flow_id]; exact h1)
    unfold assigned_ids at hrest ⊢
    rw [List.flatMap_cons, List.length_append, hrest]
    simp only
    rw [h2, List.length_map, List.length_map, List.length_range', List.length_range',
      ← List.map_append, List.range'_append_1]
    congr 2
    omega

/-- C6: in every run (whatever the allocations, `Insert_Conn_List` and
`Search_N_Conn_List` answer, so also when requests abort part-way), the flow ids that
the `run_request` calls assign are, in order of assignment, 1, 2, 3, .. up to the number
of ids assigned, as long as fewer than 2^31 are assigned: none is 0, none is used twice,
the first is 1 and each further one is the one before plus 1.  The flow built by
`exit_connection` carries id 0. -/
theorem C6_flow_ids_consecutive (plan : Plan) (usleep_overhead_us : Int) (envs : Nat → IterEnv)
    (c : Client) (hg : c.global_flow_id = 0)
    (hN : (assigned_ids (run_requests plan usleep_overhead_us envs c).1).length < 2147483648) :
    assigned_ids (run_requests plan usleep_overhead_us envs c).1
        = List.range' 1 (assigned_ids (run_requests plan usleep_overhead_us envs c).1).length
    ∧ (∀ id ∈ assigned_ids (run_requests plan usleep_overhead_us envs c).1, id ≠ 0)
    ∧ (assigned_ids (run_requests plan usleep_overhead_us envs c).1).Nodup
    ∧ (∀ (k : Nat) (hk : k < (assigned_ids (run_requests plan usleep_overhead_us envs c).1).length),
        (assigned_ids (run_requests plan usleep_overhead_us envs c).1)[k] = k + 1)
    ∧ (∀ (c' : Client) (s j : Nat) (now : timeval),
        u32_at (exit_connection c' s j now).2.buf 0 = 0) := by
  have h := run_requests_loop_ids plan usleep_overhead_us envs plan.req_total_num.toNat 0 c 0 0
    (by rw [hg]; rfl)
  have hmap : ∀ n : Nat, n < 2147483648 →
      (List.range' 0 n).map (fun m => (m + 1) % 4294967296) = List.range' 1 n := by
    intro n hn
    apply List.ext_getElem
    · simp
    · intro k h1 h2
      simp only [List.getElem_map, List.getElem_range', List.length_map, List.length_range'] at h1 ⊢
      omega
  have hids : assigned_ids (run_requests plan usleep_overhead_us envs c).1
      = List.range' 1 (assigned_ids (run_requests plan usleep_overhead_us envs c).1).length := by
    unfold run_requests at hN ⊢
    rw [← hmap _ hN]
    exact h
  refine ⟨hids, ?_, ?_, ?_, ?_⟩
  · intro id hid
    rw [hids, List.mem_range'_1] at hid
    omega
  · rw [hids]; exact List.nodup_range' _ _
  · intro k hk
    have : ∀ (l : List Nat) (n : Nat), l = List.range' 1 n → ∀ (hk : k < l.length), l[k] = k + 1 := by
      intro l n hl hk
      subst hl
      simp [List.getElem_range']
      omega
    exact this _ _ hids hk
  · intro c' s j now
    rw [exit_connection_sent]
    show u32_at terminator_buf 0 = 0
    decide

/-! ## C3: the per-server flow counts of a request -/

theorem wrapI32_of_range (x : Int) (h0 : -2147483648 ≤ x) (h1 : x < 2147483648) :
    wrapI32 x = x := by
  unfold wrapI32; omega

theorem wrapI32_add_wrapI32 (x y : Int) : wrapI32 (wrapI32 x + y) = wrapI32 (x + y) := by
  unfold wrapI32; omega

theorem bump_sum (l : List Int) :
    ∀ j : Nat, j < l.length → (∀ x ∈ l, 0 ≤ x) → l.sum + 1 < 2147483648 →
      (bump l j).sum = l.sum + 1 ∧ (∀ x ∈ bump l j, 0 ≤ x) ∧ (bump l j).length = l.length := by
  induction l with
  | nil => intro j hj; exact absurd hj (Nat.not_lt_zero j)
  | cons a l ih =>
    intro j hj hpos hsum
    have ha : 0 ≤ a := hpos a (List.mem_cons_self a l)
    have hl : ∀ x ∈ l, 0 ≤ x := fun x hx => hpos x (List.mem_cons_of_mem a hx)
    have hls : 0 ≤ l.sum := List.sum_nonneg hl
    rw [List.sum_cons] at hsum
    cases j with
    | zero =>
      unfold bump
      rw [List.modify_zero_cons, wrapI32_of_range (a + 1) (by omega) (by omega)]
      refine ⟨by simp [List.sum_cons]; omega, ?_, by simp⟩
      intro x hx
      rcases List.mem_cons.mp hx with hx | hx
      · omega
      · exact hl x hx
    | succ j =>
      have hj' : j < l.length := by simpa using hj
      obtain ⟨h1, h2, h3⟩ := ih j hj' hl (by omega)
      unfold bump at h1 h2 h3 ⊢
      rw [List.modify_succ_cons]
      refine ⟨by simp [List.sum_cons, h1]; omega, ?_, by simp [h3]⟩
      intro x hx
      rcases List.mem_cons.mp hx with hx | hx
      · omega
      · exact h2 x hx

theorem place_flows_row (num_server : Nat) (draws : Nat → Nat) (hns : 1 ≤ num_server) (n : Nat) :
    ∀ (k : Nat) (rc sc : List Int), rc.length = num_server → (∀ x ∈ rc, 0 ≤ x) →
      rc.sum + n < 2147483648 →
      (place_flows num_server draws n k (rc, sc)).1.length = num_server
      ∧ (∀ x ∈ (place_flows num_server draws n k (rc, sc)).1, 0 ≤ x)
      ∧ (place_flows num_server draws n k (rc, sc)).1.sum = rc.sum + n := by
  induction n with
  | zero => intro k rc sc hlen hpos _; simp [place_flows, hlen]; exact hpos
  | succ n ih =>
    intro k rc sc hlen hpos hsum
    have hlt : draws k % num_server < rc.length := by
      rw [hlen]; exact Nat.mod_lt _ hns
    obtain ⟨h1, h2, h3⟩ := bump_sum rc (draws k % num_server) hlt hpos (by push_cast at hsum; omega)
    rw [place_flows]
    obtain ⟨g1, g2, g3⟩ := ih (k + 1) (bump rc (draws k % num_server))
      (bump sc (draws k % num_server)) (by rw [h3, hlen]) h2 (by rw [h1]; push_cast at hsum ⊢; omega)
    refine ⟨g1, g2, ?_⟩
    rw [g3, h1]; push_cast; omega

theorem plan_request_row (num_server : Nat) (sm : Sample) (a : PlanAcc) (hns : 1 ≤ num_server)
    (h0 : 0 ≤ sm.fanout) (h1 : sm.fanout < 2147483648) :
    row_ok num_server
      (place_flows num_server sm.draws sm.fanout.toNat 0
        (List.replicate num_server 0, a.server_flow_count)).1 sm.fanout := by
  have hsum0 : (List.replicate num_server (0 : Int)).sum = 0 := by simp
  obtain ⟨g1, g2, g3⟩ := place_flows_row num_server sm.draws hns sm.fanout.toNat 0
    (List.replicate num_server 0) a.server_flow_count (by simp)
    (fun x hx => by rw [List.eq_of_mem_replicate hx])
    (by rw [hsum0]; omega)
  refine ⟨g1, g2, ?_⟩
  rw [g3, hsum0]; omega

theorem plan_requests_spec (num_server : Nat) (samples : Nat → Sample) (hns : 1 ≤ num_server)
    (n : Nat) :
    ∀ (i : Nat) (a : PlanAcc),
      (∀ r, i ≤ r → r < i + n → 0 ≤ (samples r).fanout ∧ (samples r).fanout < 2147483648) →
      wrapI32 a.flow_total_num = a.flow_total_num →
      List.Forall₂ (row_ok num_server) a.req_server_flow_count a.req_fanout →
      List.Forall₂ (row_ok num_server)
          (plan_requests num_server samples n i a).req_server_flow_count
          (plan_requests num_server samples n i a).req_fanout
      ∧ (plan_requests num_server samples n i a).req_fanout
          = a.req_fanout ++ (List.range' i n).map (fun r => (samples r).fanout)
      ∧ (plan_requests num_server samples n i a).flow_total_num
          = wrapI32 (a.flow_total_num + ((List.range' i n).map (fun r => (samples r).fanout)).sum)
          := by
  induction n with
  | zero =>
    intro i a _ hw h
    refine ⟨h, by simp [plan_requests], ?_⟩
    simp [plan_requests, hw]
  | succ n ih =>
    intro i a hfan hw h
    obtain ⟨hf0, hf1⟩ := hfan i (le_refl i) (by omega)
    have hrow := plan_request_row num_server (samples i) a hns hf0 hf1
    have hstep : List.Forall₂ (row_ok num_server)
        (plan_request num_server (samples i) a).req_server_flow_count
        (plan_request num_server (samples i) a).req_fanout := by
      unfold plan_request
      exact List.rel_append h (List.Forall₂.cons hrow List.Forall₂.nil)
    obtain ⟨g1, g2, g3⟩ := ih (i + 1) (plan_request num_server (samples i) a)
      (fun r hr1 hr2 => hfan r (by omega) (by omega))
      (by simp only [plan_request]; unfold wrapI32; omega) hstep
    rw [plan_requests]
    refine ⟨g1, ?_, ?_⟩
    · rw [g2, List.range'_succ]
      simp [plan_request]
    · rw [g3, List.range'_succ]
      simp only [plan_request, List.map_cons, List.sum_cons]
      rw [wrapI32_add_wrapI32]
      congr 1
      ring

theorem set_req_variables_returns (num_server : Nat) (req_total_num : Int)
    (samples : Nat → Sample) (garbage : Nat → Int)
    (hns : 1 ≤ num_server) (hreq : 1 ≤ req_total_num)
    (hfan : ∀ i, i < req_total_num.toNat → 1 ≤ (samples i).fanout)
    (htot : ((List.range req_total_num.toNat).map (fun i => (samples i).fanout)).sum
      < 2147483648) :
    ∃ plan, set_req_variables num_server req_total_num samples garbage = some plan
      ∧ plan.num_server = num_server
      ∧ plan.req_total_num = req_total_num
      ∧ plan.req_fanout = (List.range req_total_num.toNat).map (fun i => (samples i).fanout)
      ∧ plan.flow_total_num
          = ((List.range req_total_num.toNat).map (fun i => (samples i).fanout)).sum
      ∧ List.Forall₂ (row_ok num_server) plan.req_server_flow_count plan.req_fanout
      ∧ plan.flow_req_id
          = (fill_flow_req_id plan.req_fanout 0
              ((List.range plan.flow_total_num.toNat).map garbage, 0)).1 := by
  have hnn : ∀ x ∈ (List.range req_total_num.toNat).map (fun i => (samples i).fanout),
      0 ≤ x := by
    intro x hx
    obtain ⟨i, hi, rfl⟩ := List.mem_map.mp hx
    have := hfan i (List.mem_range.mp hi)
    omega
  have hle : ∀ i, i < req_total_num.toNat → (samples i).fanout
      ≤ ((List.range req_total_num.toNat).map (fun i => (samples i).fanout)).sum := by
    intro i hi
    exact List.single_le_sum hnn _ (List.mem_map.mpr ⟨i, List.mem_range.mpr hi, rfl⟩)
  have hpos : 1 ≤ ((List.range req_total_num.toNat).map (fun i => (samples i).fanout)).sum := by
    have h0 : 0 < req_total_num.toNat := by omega
    exact le_trans (hfan 0 h0) (hle 0 h0)
  obtain ⟨g1, g2, g3⟩ := plan_requests_spec num_server samples hns req_total_num.toNat 0
    { req_size := [], req_fanout := [], req_dscp := [], req_rate := [], req_sleep_us := [],
      req_server_flow_count := [], server_flow_count := List.replicate num_server 0,
      flow_total_num := 0 }
    (fun r _ hr => by
      have h1 := hfan r (by omega)
      have h2 := hle r (by omega)
      exact ⟨by omega, by omega⟩)
    (by show wrapI32 0 = 0; decide) List.Forall₂.nil
  rw [← List.range_eq_range'] at g2 g3
  simp only [List.nil_append, zero_add] at g2 g3
  rw [wrapI32_of_range _ (by omega) htot] at g3
  unfold set_req_variables
  rw [if_neg (by omega), if_neg (by omega)]
  simp only
  rw [if_neg (by rw [g3]; omega)]
  exact ⟨_, rfl, rfl, rfl, g2, g3, g1, rfl⟩

/-- C3: for every number of servers (at least one), every number of requests (at least
one) and every sequence of server draws, with fanouts of at least 1 whose total fits an
`int`: `set_req_variables` returns, and for every planned request `i` the row
`req_server_flow_count[i]` has one entry per server, no entry is negative, and the
entries add up to `req_fanout[i]`. -/
theorem C3_server_counts_sum (num_server : Nat) (req_total_num : Int)
    (samples : Nat → Sample) (garbage : Nat → Int)
    (hns : 1 ≤ num_server) (hreq : 1 ≤ req_total_num)
    (hfan : ∀ i, i < req_total_num.toNat → 1 ≤ (samples i).fanout)
    (htot : ((List.range req_total_num.toNat).map (fun i => (samples i).fanout)).sum
      < 2147483648) :
    ∃ plan, set_req_variables num_server req_total_num samples garbage = some plan
      ∧ plan.req_server_flow_count.length = req_total_num.toNat
      ∧ ∀ i, i < req_total_num.toNat →
          plan.req_fanout.getD i 0 = (samples i).fanout
          ∧ (plan.req_server_flow_count.getD i []).length = num_server
          ∧ (∀ x ∈ plan.req_server_flow_count.getD i [], 0 ≤ x)
          ∧ (plan.req_server_flow_count.getD i []).sum = plan.req_fanout.getD i 0 := by
  obtain ⟨plan, hplan, _, _, hfo, _, hrows, _⟩ :=
    set_req_variables_returns num_server req_total_num samples garbage hns hreq hfan htot
  have hlen2 : plan.req_fanout.length = req_total_num.toNat := by rw [hfo]; simp
  have hlen1 : plan.req_server_flow_count.length = req_total_num.toNat := by
    rw [hrows.length_eq, hlen2]
  refine ⟨plan, hplan, hlen1, ?_⟩
  intro i hi
  have h1 : i < plan.req_server_flow_count.length := by omega
  have h2 : i < plan.req_fanout.length := by omega
  have hrow := (List.forall₂_iff_get.mp hrows).2 i h1 h2
  rw [List.getD_eq_getElem _ _ h1, List.getD_eq_getElem _ _ h2]
  simp only [List.get_eq_getElem] at hrow
  refine ⟨?_, hrow.1, hrow.2.1, hrow.2.2⟩
  simp [hfo]

/-- Witness of `C3_server_counts_sum`: three requests with fanouts 2, 1, 3 on two servers. -/
theorem C3_server_counts_sum_witness :
    ∃ plan, set_req_variables 2 3 demo_samples (fun _ => -7) = some plan
      ∧ plan.req_server_flow_count.length = (3 : Int).toNat
      ∧ ∀ i, i < (3 : Int).toNat →
          plan.req_fanout.getD i 0 = (demo_samples i).fanout
          ∧ (plan.req_server_flow_count.getD i []).length = 2
          ∧ (∀ x ∈ plan.req_server_flow_count.getD i [], 0 ≤ x)
          ∧ (plan.req_server_flow_count.getD i []).sum = plan.req_fanout.getD i 0 :=
  C3_server_counts_sum 2 3 demo_samples (fun _ => -7) (by decide) (by decide)
    (by decide) (by decide)

/-! ## C4: the request of each flow -/

theorem fill_request_spec (i : Int) (n : Nat) :
    ∀ (pre rest : List Int), n ≤ rest.length →
      fill_request i n (pre ++ rest, pre.length)
        = (pre ++ List.replicate n i ++ rest.drop n, pre.length + n) := by
  induction n with
  | zero => intro pre rest _; simp [fill_request]
  | succ n ih =>
    intro pre rest hlen
    cases rest with
    | nil => simp at hlen
    | cons x rest =>
      rw [fill_request]
      have hset : (pre ++ x :: rest).set pre.length i = (pre ++ [i]) ++ rest := by
        rw [List.set_append_right _ _ (le_refl _)]
        simp
      have hpos : pre.length + 1 = (pre ++ [i]).length := by simp
      rw [hset, hpos, ih (pre ++ [i]) rest (by simpa using hlen)]
      simp [List.replicate_succ]
      omega

theorem request_blocks_length (fanouts : List Int) :
    ∀ i : Nat, (request_blocks fanouts i).length = (fanouts.map Int.toNat).sum := by
  induction fanouts with
  | nil => intro i; rfl
  | cons f rest ih => intro i; simp [request_blocks, ih]

theorem fill_flow_req_id_spec (fanouts : List Int) :
    ∀ (i : Nat) (pre rest : List Int), (fanouts.map Int.toNat).sum ≤ rest.length →
      fill_flow_req_id fanouts i (pre ++ rest, pre.length)
        = (pre ++ request_blocks fanouts i ++ rest.drop (fanouts.map Int.toNat).sum,
           pre.length + (fanouts.map Int.toNat).sum) := by
  induction fanouts with
  | nil => intro i pre rest _; simp [fill_flow_req_id, request_blocks]
  | cons f fs ih =>
    intro i pre rest hlen
    simp only [List.map_cons, List.sum_cons] at hlen
    rw [fill_flow_req_id, fill_request_spec i f.toNat pre rest (by omega)]
    have hpos : pre.length + f.toNat = (pre ++ List.replicate f.toNat (i : Int)).length := by simp
    rw [hpos, ih (i + 1) (pre ++ List.replicate f.toNat (i : Int)) (rest.drop f.toNat)
      (by rw [List.length_drop]; omega)]
    simp [request_blocks, List.drop_drop]
    omega

theorem request_blocks_ge (fanouts : List Int) :
    ∀ (i : Nat), ∀ x ∈ request_blocks fanouts i, (i : Int) ≤ x := by
  induction fanouts with
  | nil => intro i x hx; simp [request_blocks] at hx
  | cons f fs ih =>
    intro i x hx
    simp only [request_blocks, List.mem_append] at hx
    rcases hx with hx | hx
    · rw [List.eq_of_mem_replicate hx]
    · have := ih (i + 1) x hx
      push_cast at this
      omega

theorem flow_offset_zero (fanouts : List Int) : flow_offset fanouts 0 = 0 := by
  simp [flow_offset]

theorem flow_offset_cons (f : Int) (fs : List Int) (q : Nat) :
    flow_offset (f :: fs) (q + 1) = f.toNat + flow_offset fs q := by
  simp [flow_offset]

theorem request_blocks_index (fanouts : List Int) :
    ∀ (i j : Nat) (hj : j < (request_blocks fanouts i).length) (q : Nat), q < fanouts.length →
      ((request_blocks fanouts i)[j] = ((i + q : Nat) : Int)
        ↔ flow_offset fanouts q ≤ j ∧ j < flow_offset fanouts (q + 1)) := by
  induction fanouts with
  | nil => intro i j hj q hq; simp at hq
  | cons f fs ih =>
    intro i j hj q hq
    simp only [request_blocks] at hj ⊢
    by_cases hjf : j < f.toNat
    · rw [List.getElem_append_left (by simpa using hjf), List.getElem_replicate]
      cases q with
      | zero =>
        rw [flow_offset_zero, flow_offset_cons, flow_offset_zero]
        simp [hjf]
      | succ q =>
        rw [flow_offset_cons]
        constructor
        · intro h; push_cast at h; omega
        · intro h; omega
    · rw [List.getElem_append_right (by simpa using hjf)]
      simp only [List.length_replicate]
      have hj' : j - f.toNat < (request_blocks fs (i + 1)).length := by
        simp only [List.length_append, List.length_replicate] at hj
        omega
      cases q with
      | zero =>
        rw [flow_offset_zero, flow_offset_cons, flow_offset_zero]
        have hge := request_blocks_ge fs (i + 1) _ (List.getElem_mem hj')
        constructor
        · intro h; push_cast at h hge; omega
        · intro h; omega
      | succ q =>
        have hq' : q < fs.length := by simpa using hq
        rw [flow_offset_cons, flow_offset_cons]
        have := ih (i + 1) (j - f.toNat) hj' q hq'
        have hcast : ((i + (q + 1) : Nat) : Int) = ((i + 1 + q : Nat) : Int) := by
          push_cast; ring
        rw [hcast, this]
        omega

theorem request_blocks_sorted (fanouts : List Int) :
    ∀ i : Nat, (request_blocks fanouts i).Pairwise (fun a b => a ≤ b) := by
  induction fanouts with
  | nil => intro i; simp [request_blocks]
  | cons f fs ih =>
    intro i
    simp only [request_blocks]
    rw [List.pairwise_append]
    refine ⟨?_, ih (i + 1), ?_⟩
    · rw [List.pairwise_replicate]; right; exact le_refl _
    · intro a ha b hb
      rw [List.eq_of_mem_replicate ha]
      have := request_blocks_ge fs (i + 1) b hb
      push_cast at this
      omega

theorem request_blocks_count (fanouts : List Int) :
    ∀ (i q : Nat), q < fanouts.length →
      List.count ((i + q : Nat) : Int) (request_blocks fanouts i) = (fanouts.getD q 0).toNat := by
  induction fanouts with
  | nil => intro i q hq; simp at hq
  | cons f fs ih =>
    intro i q hq
    simp only [request_blocks, List.count_append, List.count_replicate]
    cases q with
    | zero =>
      have hz : List.count ((i + 0 : Nat) : Int) (request_blocks fs (i + 1)) = 0 := by
        rw [List.count_eq_zero]
        intro hmem
        have := request_blocks_ge fs (i + 1) _ hmem
        push_cast at this
        omega
      rw [hz]
      simp
    | succ q =>
      have hq' : q < fs.length := by simpa using hq
      have hcast : ((i + (q + 1) : Nat) : Int) = ((i + 1 + q : Nat) : Int) := by
        push_cast; ring
      rw [hcast, ih (i + 1) q hq']
      have hne : ¬ ((i : Int) == ((i + 1 + q : Nat) : Int)) = true := by
        simp only [beq_iff_eq]; push_cast; omega
      rw [if_neg hne]
      simp

theorem toNat_sum (l : List Int) (h : ∀ x ∈ l, 0 ≤ x) :
    ((l.map Int.toNat).sum : Int) = l.sum := by
  induction l with
  | nil => rfl
  | cons a l ih =>
    have ha : 0 ≤ a := h a (List.mem_cons_self a l)
    have := ih (fun x hx => h x (List.mem_cons_of_mem a hx))
    simp only [List.map_cons, List.sum_cons]
    push_cast at this ⊢
    omega

theorem flow_offset_cast (fanouts : List Int) (h : ∀ x ∈ fanouts, 0 ≤ x) (i : Nat) :
    (flow_offset fanouts i : Int) = (fanouts.take i).sum :=
  toNat_sum (fanouts.take i) (fun x hx => h x (List.mem_of_mem_take hx))

/-- C4: with at least one server, at least one request, fanouts of at least 1 and a
total that fits an `int`, `set_req_variables` returns with `flow_total_num` equal to the
sum of `req_fanout[i]` over all requests, and `flow_req_id` has `flow_total_num` cells,
all written (the result does not depend on what the array held before).
`flow_req_id[j] = i` holds exactly when
`sum_{r<i} req_fanout[r] <= j < sum_{r<=i} req_fanout[r]`; hence `flow_req_id` is
non-decreasing and request `i` occurs exactly `req_fanout[i]` times. -/
theorem C4_flow_req_id_blocks (num_server : Nat) (req_total_num : Int)
    (samples : Nat → Sample) (garbage : Nat → Int)
    (hns : 1 ≤ num_server) (hreq : 1 ≤ req_total_num)
    (hfan : ∀ i, i < req_total_num.toNat → 1 ≤ (samples i).fanout)
    (htot : ((List.range req_total_num.toNat).map (fun i => (samples i).fanout)).sum
      < 2147483648) :
    ∃ plan, set_req_variables num_server req_total_num samples garbage = some plan
      ∧ plan.req_fanout = (List.range req_total_num.toNat).map (fun i => (samples i).fanout)
      ∧ plan.flow_total_num = plan.req_fanout.sum
      ∧ (plan.flow_req_id.length : Int) = plan.flow_total_num
      ∧ plan.flow_req_id = request_blocks plan.req_fanout 0
      ∧ (∀ i, (flow_offset plan.req_fanout i : Int) = (plan.req_fanout.take i).sum)
      ∧ (∀ (j : Nat) (hj : j < plan.flow_req_id.length) (i : Nat), i < req_total_num.toNat →
          (plan.flow_req_id[j] = (i : Int)
            ↔ flow_offset plan.req_fanout i ≤ j ∧ j < flow_offset plan.req_fanout (i + 1)))
      ∧ plan.flow_req_id.Pairwise (fun a b => a ≤ b)
      ∧ (∀ i, i < req_total_num.toNat →
          (List.count (i : Int) plan.flow_req_id : Int) = plan.req_fanout.getD i 0) := by
  obtain ⟨plan, hplan, _, _, hfo, htn, _, hfill⟩ :=
    set_req_variables_returns num_server req_total_num samples garbage hns hreq hfan htot
  have hnn : ∀ x ∈ plan.req_fanout, 0 ≤ x := by
    intro x hx
    rw [hfo] at hx
    obtain ⟨i, hi, rfl⟩ := List.mem_map.mp hx
    have := hfan i (List.mem_range.mp hi)
    omega
  have hlenf : plan.req_fanout.length = req_total_num.toNat := by rw [hfo]; simp
  have hsum : ((plan.req_fanout.map Int.toNat).sum : Int) = plan.flow_total_num := by
    rw [toNat_sum _ hnn, htn, hfo]
  have hblocks : plan.flow_req_id = request_blocks plan.req_fanout 0 := by
    have hspec := fill_flow_req_id_spec plan.req_fanout 0 []
      ((List.range plan.flow_total_num.toNat).map garbage)
      (by simp only [List.length_map, List.length_range]; omega)
    simp only [List.nil_append, List.length_nil] at hspec
    rw [hfill, hspec]
    simp only
    rw [List.drop_eq_nil_of_le (by simp only [List.length_map, List.length_range]; omega)]
    simp
  refine ⟨plan, hplan, hfo, by rw [htn, hfo], ?_, hblocks,
    fun i => flow_offset_cast plan.req_fanout hnn i, ?_, ?_, ?_⟩
  · rw [hblocks, request_blocks_length]; exact hsum
  · intro j hj i hi
    have h := request_blocks_index plan.req_fanout 0 j (by rw [← hblocks]; exact hj) i
      (by omega)
    simp only [Nat.zero_add] at h
    simp only [hblocks]
    exact h
  · rw [hblocks]; exact request_blocks_sorted plan.req_fanout 0
  · intro i hi
    have h := request_blocks_count plan.req_fanout 0 i (by omega)
    simp only [Nat.zero_add] at h
    rw [hblocks, h]
    have h0 : 0 ≤ plan.req_fanout.getD i 0 :=
      hnn _ (by rw [List.getD_eq_getElem _ _ (by omega)]; exact List.getElem_mem _)
    omega

/-- Witness of `C4_flow_req_id_blocks`: three requests with fanouts 2, 1, 3 on two
servers. -/
theorem C4_flow_req_id_blocks_witness :
    ∃ plan, set_req_variables 2 3 demo_samples (fun _ => -7) = some plan
      ∧ plan.flow_total_num = 6 ∧ plan.flow_req_id = [0, 0, 1, 2, 2, 2] := by
  obtain ⟨plan, h1, h2, h3, _, h5, _⟩ := C4_flow_req_id_blocks 2 3 demo_samples (fun _ => -7)
    (by decide) (by decide) (by decide) (by decide)
  refine ⟨plan, h1, ?_, ?_⟩
  · rw [h3, h2]; decide
  · rw [h5, h2]; decide

/-! ## C7, C8: pacing -/

theorem run_requests_loop_chain (plan : Plan) (usleep_overhead_us : Int) (envs : Nat → IterEnv)
    (n : Nat) :
    ∀ (i : Nat) (c : Client) (s : Int) (logs : List IterLog),
      logs = (run_requests_loop plan usleep_overhead_us envs n i c s).1 →
      logs.length = n
      ∧ (∀ (h0 : 0 < logs.length), (logs[0]).sleep_in = s)
      ∧ (∀ (k : Nat) (hk : k + 1 < logs.length), (logs[k + 1]).sleep_in = (logs[k]).sleep_out)
      ∧ (∀ (k : Nat) (hk : k < logs.length),
          (logs[k]).req_id = i + k
          ∧ (logs[k]).req_duration_us
              = duration_us (envs (i + k)).req_tv_start (envs (i + k)).req_tv_end
          ∧ ((logs[k]).sleep_out, (logs[k]).usleep)
              = pace usleep_overhead_us (logs[k]).sleep_in (plan.req_sleep_us.getD (i + k) 0)
                  (logs[k]).req_duration_us) := by
  induction n with
  | zero =>
    intro i c s logs hlogs
    subst hlogs
    simp [run_requests_loop]
  | succ n ih =>
    intro i c s logs hlogs
    rw [run_requests_loop] at hlogs
    simp only at hlogs
    obtain ⟨g1, g2, g3, g4⟩ := ih (i + 1)
      (listen_all plan (run_request plan (envs i).env c i).client (envs i).listeners)
      (pace usleep_overhead_us s (plan.req_sleep_us.getD i 0)
        (duration_us (envs i).req_tv_start (envs i).req_tv_end)).1 _ rfl
    subst hlogs
    refine ⟨by simp only [List.length_cons, g1], ?_, ?_, ?_⟩
    · intro _; rfl
    · intro k hk
      cases k with
      | zero =>
        simp only [List.getElem_cons_succ, List.getElem_cons_zero]
        exact g2 (by simpa using hk)
      | succ k =>
        simp only [List.getElem_cons_succ]
        exact g3 k (by simpa using hk)
    · intro k hk
      cases k with
      | zero => exact ⟨rfl, rfl, rfl⟩
      | succ k =>
        simp only [List.getElem_cons_succ]
        have := g4 k (by simpa using hk)
        have hidx : i + (k + 1) = i + 1 + k := by omega
        rw [hidx]
        exact this

theorem pace_spec (usleep_overhead_us sleep_us req_sleep_us_i req_duration_us : Int)
    (h1 : fits_int (sleep_us + req_sleep_us_i))
    (h2 : fits_int (usleep_overhead_us + req_duration_us))
    (h3 : fits_int (sleep_us + req_sleep_us_i - usleep_overhead_us))
    (h4 : fits_int (sleep_us + req_sleep_us_i - usleep_overhead_us - req_duration_us)) :
    (usleep_overhead_us + req_duration_us < sleep_us + req_sleep_us_i →
      pace usleep_overhead_us sleep_us req_sleep_us_i req_duration_us
        = (0, some (sleep_us + req_sleep_us_i - usleep_overhead_us - req_duration_us).toNat))
    ∧ (sleep_us + req_sleep_us_i ≤ usleep_overhead_us + req_duration_us →
      pace usleep_overhead_us sleep_us req_sleep_us_i req_duration_us
        = (sleep_us + req_sleep_us_i, none)) := by
  unfold fits_int at h1 h2 h3 h4
  have e1 := wrapI32_of_range _ h1.1 h1.2
  have e2 := wrapI32_of_range _ h2.1 h2.2
  have e3 := wrapI32_of_range _ h3.1 h3.2
  have e4 := wrapI32_of_range _ h4.1 h4.2
  constructor
  · intro h
    unfold pace
    simp only [e1, e2, e3, e4]
    rw [if_pos (by omega)]
    congr 2
    unfold toU32
    omega
  · intro h
    unfold pace
    simp only [e1, e2]
    rw [if_neg (by omega)]

theorem duration_us_of_fits (tv_start tv_end : timeval)
    (h : fits_int (elapsed_us tv_start tv_end)) :
    duration_us tv_start tv_end = elapsed_us tv_start tv_end := by
  unfold fits_int at h
  unfold duration_us
  exact wrapI32_of_range _ h.1 h.2

/-- C7 as stated fails for a dispatch of 2^31 us or more: in `overload_plan` under
`long_envs` every dispatch takes 3000000000 us by the clock, which the
`int req_duration_us` holds as -1294967296.  After request 0 the debt is `debt' = 0 + 1`
and `debt' <= usleep_overhead + elapsed_0 = 0 + 3000000000`, so the claim has no sleep
and the debt 1 carried to request 1; the code compares with -1294967296, calls
`usleep(1294967297)` and resets the debt to 0. -/
theorem C7_long_dispatch_counterexample :
    elapsed_us (long_envs 0).req_tv_start (long_envs 0).req_tv_end = 3000000000
    ∧ 0 + overload_plan.req_sleep_us.getD 0 0
        ≤ 0 + elapsed_us (long_envs 0).req_tv_start (long_envs 0).req_tv_end
    ∧ (run_requests overload_plan 0 long_envs overload_client).1.map
        (fun lg => (lg.sleep_in, lg.req_duration_us, lg.usleep, lg.sleep_out))
      = [(0, -1294967296, some 1294967297, 0), (0, -1294967296, some 1294967297, 0)] := by
  decide

/-- C7 (amended): the pacing loop of `run_requests` runs once per request, enters
request 0 with sleep debt 0 and enters request `i+1` with the debt request `i` left.
After request `i`, with `debt' = debt + req_sleep_us[i]` and `elapsed_i` the time between
the two clock readings around `run_request(i)`: when `elapsed_i` fits an `int` (the
dispatch takes less than 2^31 us) and no `int` addition or subtraction of the iteration
overflows, `req_duration_us` is `elapsed_i`, and if
`debt' > usleep_overhead + elapsed_i` the loop calls `usleep` with exactly
`debt' - usleep_overhead - elapsed_i`, a strictly positive amount, and leaves debt 0;
otherwise it calls no `usleep` and leaves `debt'`. -/
theorem C7_pacing_debt (plan : Plan) (usleep_overhead_us : Int) (envs : Nat → IterEnv)
    (c : Client) :
    (run_requests plan usleep_overhead_us envs c).1.length = plan.req_total_num.toNat
    ∧ (∀ (h0 : 0 < (run_requests plan usleep_overhead_us envs c).1.length),
        ((run_requests plan usleep_overhead_us envs c).1[0]).sleep_in = 0)
    ∧ (∀ (i : Nat) (hi : i + 1 < (run_requests plan usleep_overhead_us envs c).1.length),
        ((run_requests plan usleep_overhead_us envs c).1[i + 1]).sleep_in
          = ((run_requests plan usleep_overhead_us envs c).1[i]).sleep_out)
    ∧ (∀ (i : Nat) (hi : i < (run_requests plan usleep_overhead_us envs c).1.length),
        ((run_requests plan usleep_overhead_us envs c).1[i]).req_id = i
        ∧ (fits_int (elapsed_us (envs i).req_tv_start (envs i).req_tv_end) →
           fits_int (((run_requests plan usleep_overhead_us envs c).1[i]).sleep_in
              + plan.req_sleep_us.getD i 0) →
           fits_int (usleep_overhead_us
              + elapsed_us (envs i).req_tv_start (envs i).req_tv_end) →
           fits_int (((run_requests plan usleep_overhead_us envs c).1[i]).sleep_in
              + plan.req_sleep_us.getD i 0 - usleep_overhead_us) →
           fits_int (((run_requests plan usleep_overhead_us envs c).1[i]).sleep_in
              + plan.req_sleep_us.getD i 0 - usleep_overhead_us
              - elapsed_us (envs i).req_tv_start (envs i).req_tv_end) →
           ((run_requests plan usleep_overhead_us envs c).1[i]).req_duration_us
              = elapsed_us (envs i).req_tv_start (envs i).req_tv_end
           ∧ (usleep_overhead_us + elapsed_us (envs i).req_tv_start (envs i).req_tv_end
              < ((run_requests plan usleep_overhead_us envs c).1[i]).sleep_in
                + plan.req_sleep_us.getD i 0 →
              ((run_requests plan usleep_overhead_us envs c).1[i]).usleep
                = some (((run_requests plan usleep_overhead_us envs c).1[i]).sleep_in
                    + plan.req_sleep_us.getD i 0 - usleep_overhead_us
                    - elapsed_us (envs i).req_tv_start (envs i).req_tv_end).toNat
              ∧ 0 < ((run_requests plan usleep_overhead_us envs c).1[i]).sleep_in
                    + plan.req_sleep_us.getD i 0 - usleep_overhead_us
                    - elapsed_us (envs i).req_tv_start (envs i).req_tv_end
              ∧ ((run_requests plan usleep_overhead_us envs c).1[i]).sleep_out = 0)
           ∧ (((run_requests plan usleep_overhead_us envs c).1[i]).sleep_in
                + plan.req_sleep_us.getD i 0
              ≤ usleep_overhead_us + elapsed_us (envs i).req_tv_start (envs i).req_tv_end →
              ((run_requests plan usleep_overhead_us envs c).1[i]).usleep = none
              ∧ ((run_requests plan usleep_overhead_us envs c).1[i]).sleep_out
                  = ((run_requests plan usleep_overhead_us envs c).1[i]).sleep_in
                    + plan.req_sleep_us.getD i 0))) := by
  obtain ⟨g1, g2, g3, g4⟩ := run_requests_loop_chain plan usleep_overhead_us envs
    plan.req_total_num.toNat 0 c 0 (run_requests plan usleep_overhead_us envs c).1 rfl
  refine ⟨g1, g2, g3, ?_⟩
  intro i hi
  obtain ⟨k1, k2, k3⟩ := g4 i hi
  simp only [Nat.zero_add] at k1 k2 k3
  refine ⟨k1, ?_⟩
  intro hel h1 h2 h3 h4
  have k2e : ((run_requests plan usleep_overhead_us envs c).1[i]).req_duration_us
      = elapsed_us (envs i).req_tv_start (envs i).req_tv_end :=
    k2.trans (duration_us_of_fits _ _ hel)
  rw [k2e] at k3
  obtain ⟨p1, p2⟩ := pace_spec usleep_overhead_us _ _ _ h1 h2 h3 h4
  refine ⟨k2e, ?_, ?_⟩
  · intro hlt
    rw [p1 hlt] at k3
    have ka := congrArg Prod.fst k3
    have kb := congrArg Prod.snd k3
    simp only at ka kb
    exact ⟨kb, by omega, ka⟩
  · intro hle
    rw [p2 hle] at k3
    have ka := congrArg Prod.fst k3
    have kb := congrArg Prod.snd k3
    simp only at ka kb
    exact ⟨kb, ka⟩

/-- Witness of `C7_pacing_debt`: in the run of `overload_plan` with dispatches of 1 us,
request 1 enters with debt 1, meets `1 + 1 > 0 + 1`, and leaves debt 0. -/
theorem C7_pacing_debt_witness :
    ((run_requests overload_plan 0 overload_envs overload_client).1[1]).sleep_out = 0 :=
  ((((C7_pacing_debt overload_plan 0 overload_envs overload_client).2.2.2 1
      (by decide)).2 (by decide) (by decide) (by decide) (by decide) (by decide)).2.1
    (by decide)).2.2

/-- C2 (the code departs from it): three requests with fanouts 5, 1, 1 on one server
with a pool of five connections.  Request 0 is dispatched with flow ids 1..5; request 1
aborts because `Insert_Conn_List` fails and consumes no flow id; request 2 is dispatched
and its flow gets id 6, while `flow_req_id[5]` is 1.  The response to flow 6 therefore
stamps `req_stop_time[1]`, the stop time of the aborted request, which is no longer zero
at the end of the run, and `req_stop_time[2]` stays zero although request 2 completed. -/
theorem C2_aborted_request_is_stamped :
    set_req_variables 1 3 abort_samples (fun _ => -1) = some abort_plan
    ∧ (run_requests abort_plan 0 abort_envs abort_client).1.map
        (fun lg => lg.request.dispatched) = [true, false, true]
    ∧ (run_requests abort_plan 0 abort_envs abort_client).1.map
        (fun lg => lg.request.inserted) = [[], [(0, 1)], []]
    ∧ (run_requests abort_plan 0 abort_envs abort_client).1.map
        (fun lg => lg.request.flow_req.map Flow.flow_id) = [[1, 2, 3, 4, 5], [], [6]]
    ∧ (run_requests abort_plan 0 abort_envs abort_client).2.1.req_start_time
        = [⟨7, 10⟩, ⟨0, 0⟩, ⟨9, 10⟩]
    ∧ (run_requests abort_plan 0 abort_envs abort_client).2.1.req_stop_time
        = [⟨9, 1⟩, ⟨12, 1⟩, ⟨0, 0⟩]
    ∧ (exit_connections abort_plan
        (run_requests abort_plan 0 abort_envs abort_client).2.1 ⟨13, 0⟩).1.req_stop_time
        = [⟨9, 1⟩, ⟨12, 1⟩, ⟨0, 0⟩] := by
  decide

/-- Witness of `C6_flow_ids_consecutive`: the run of `abort_plan`, in which request 1
aborts, assigns the ids 1, 2, 3, 4, 5, 6. -/
theorem C6_flow_ids_consecutive_witness :
    assigned_ids (run_requests abort_plan 0 abort_envs abort_client).1
      = List.range' 1 (assigned_ids (run_requests abort_plan 0 abort_envs abort_client).1).length
    ∧ assigned_ids (run_requests abort_plan 0 abort_envs abort_client).1 = [1, 2, 3, 4, 5, 6] :=
  ⟨(C6_flow_ids_consecutive abort_plan 0 abort_envs abort_client (by decide) (by decide)).1,
   by decide⟩

/-! ## C11: a terminator for a retired node -/

/-- C11 as stated fails: `exit_connection` on the retired node of `demo_retired_client`
(`connected=false`, `busy=false`, `available_len = 0`) sets `busy=true` and decrements
`available_len` to 4294967295, with a complete write as well as with a failed one. -/
theorem C11_terminator_on_retired_counterexample :
    demo_retired_client.list 0
      = { nodes := [⟨false, false⟩], len := 1, available_len := 0, flow_finished := 1 }
    ∧ (exit_connection_write demo_retired_client 0 0 ⟨9, 0⟩ 16).1.list 0
      = { nodes := [⟨false, true⟩], len := 1, available_len := 4294967295, flow_finished := 1 }
    ∧ (exit_connection_write demo_retired_client 0 0 ⟨9, 0⟩ 0).1.list 0
      = { nodes := [⟨false, true⟩], len := 1, available_len := 4294967295, flow_finished := 1 }
    ∧ (exit_connection_write demo_retired_client 0 0 ⟨9, 0⟩ 0).2.2 = true
    ∧ (exit_connection demo_retired_client 0 0 ⟨9, 0⟩).1.list 0 ≠ demo_retired_client.list 0 := by
  decide

theorem exit_nodes_all_retired (s : Nat) (now : timeval) (c : Client) (js : List Nat) :
    ∀ out : List Sent, (∀ j ∈ js, (c.node s j).connected = false) →
      exit_nodes s now js (c, out) = (c, out) := by
  induction js with
  | nil => intro out _; rfl
  | cons j js ih =>
    intro out h
    have hj : ¬ (c.node s j).connected = true := by
      rw [h j (List.mem_cons_self j js)]; decide
    rw [exit_nodes, if_neg hj]
    exact ih out (fun j' hj' => h j' (List.mem_cons_of_mem j hj'))

theorem exit_servers_all_retired (now : timeval) (c : Client)
    (h : ∀ s j, (c.node s j).connected = false) (ss : List Nat) :
    ∀ out : List Sent, exit_servers now ss (c, out) = (c, out) := by
  induction ss with
  | nil => intro out; rfl
  | cons s ss ih =>
    intro out
    rw [exit_servers, exit_nodes_all_retired s now c _ out (fun j _ => h s j)]
    exact ih out

/-- C11 (amended): `exit_connections` sends no terminator to a retired node: its step at
a node with `connected=false` changes nothing and writes nothing, and a walk over pools
whose nodes are all retired leaves the whole client state as it was.  `exit_connection`
itself has no such guard: on a retired node it leaves `connected=false`, `len` and
`flow_finished` as they were, but sets `busy=true` and decrements `available_len`
modulo 2^32, and writes the terminator buffer; all of this is the same whatever
`write_exact` returns. -/
theorem C11_terminator_on_retired (plan : Plan) (c : Client) (s j : Nat) (now : timeval)
    (written : Nat) (hs : s < c.connection_lists.length) (hj : j < (c.list s).nodes.length)
    (hc : (c.node s j).connected = false) :
    (∀ out, exit_nodes s now [j] (c, out) = (c, out))
    ∧ ((∀ s' j', (c.node s' j').connected = false) → exit_connections plan c now = (c, []))
    ∧ ((exit_connection_write c s j now written).1.node s j).connected = false
    ∧ ((exit_connection_write c s j now written).1.node s j).busy = true
    ∧ ((exit_connection_write c s j now written).1.list s).len = (c.list s).len
    ∧ ((exit_connection_write c s j now written).1.list s).flow_finished
        = (c.list s).flow_finished
    ∧ ((exit_connection_write c s j now written).1.list s).available_len
        = ((c.list s).available_len + 4294967295) % 4294967296
    ∧ (exit_connection_write c s j now written).2.1
        = { server := s, node := j, buf := terminator_buf }
    ∧ (exit_connection_write c s j now written).1 = (exit_connection c s j now).1 := by
  have hlist : (exit_connection_write c s j now written).1.list s = (c.list s).lease j := by
    show (run_flow c _ now).1.list s = _
    rw [run_flow_list]
    exact if_pos ⟨rfl, hs⟩
  refine ⟨fun out => exit_nodes_all_retired s now c [j] out (fun j' hj' => ?_),
    fun h => exit_servers_all_retired now c h _ [], ?_, ?_, ?_, ?_, ?_, ?_, rfl⟩
  · rw [List.mem_singleton.mp hj']; exact hc
  · simp only [Client.node, hlist, Conn_List.lease]
    rw [node_modify_same _ _ _ hj]
    exact hc
  · simp only [Client.node, hlist, Conn_List.lease]
    rw [node_modify_same _ _ _ hj]
  · rw [hlist]; rfl
  · rw [hlist]; rfl
  · rw [hlist]; rfl
  · exact exit_connection_sent c s j now

/-- Witness of `C11_terminator_on_retired`: the retired node of `demo_retired_client`
ends up busy after `exit_connection`, and the walk of `exit_connections` leaves the
client alone. -/
theorem C11_terminator_on_retired_witness :
    ((exit_connection_write demo_retired_client 0 0 ⟨9, 0⟩ 0).1.node 0 0).busy = true
    ∧ exit_connections demo_plan demo_retired_client ⟨9, 0⟩ = (demo_retired_client, []) :=
  ⟨(C11_terminator_on_retired demo_plan demo_retired_client 0 0 ⟨9, 0⟩ 0
      (by decide) (by decide) (by decide)).2.2.2.1,
   (C11_terminator_on_retired demo_plan demo_retired_client 0 0 ⟨9, 0⟩ 0
      (by decide) (by decide) (by decide)).2.1 (by
        intro s' j'
        match s', j' with
        | 0, 0 => rfl
        | 0, _ + 1 => rfl
        | _ + 1, _ => rfl)⟩

/-! ## C12: the 16 bytes of a descriptor -/

theorem u32_bytes_lt (x : Nat) : ∀ b ∈ u32_bytes x, b < 256 := by
  intro b hb
  simp only [u32_bytes, List.mem_cons, List.mem_singleton, List.not_mem_nil, or_false] at hb
  omega

/-- C12: for every flow whose four fields are unsigned 32-bit values, the buffer that
`run_flow` hands to `write_exact` has exactly 16 bytes (each below 256); byte `r` of word
`k` (offset `4k + r`) is `(word / 256^r) % 256`, so the words `flow_id`, `flow_size`,
`flow_tos`, `flow_rate` lie at offsets 0, 4, 8, 12 in little-endian order (the host of
the embedding is little-endian); and the extraction of `listen_connection` applied to
these bytes gives back the four values, the first of which is the `flow_id` the
listener acts on. -/
theorem C12_descriptor_roundtrip (c : Client) (f : Flow) (now : timeval)
    (h1 : f.flow_id < 4294967296) (h2 : f.flow_size < 4294967296)
    (h3 : f.flow_tos < 4294967296) (h4 : f.flow_rate < 4294967296) :
    (run_flow c f now).2.buf = fill_meta_data f
    ∧ (fill_meta_data f).length = 16
    ∧ (∀ b ∈ fill_meta_data f, b < 256)
    ∧ (∀ r, r < 4 → (fill_meta_data f).getD r 0 = f.flow_id / 256 ^ r % 256)
    ∧ (∀ r, r < 4 → (fill_meta_data f).getD (4 + r) 0 = f.flow_size / 256 ^ r % 256)
    ∧ (∀ r, r < 4 → (fill_meta_data f).getD (8 + r) 0 = f.flow_tos / 256 ^ r % 256)
    ∧ (∀ r, r < 4 → (fill_meta_data f).getD (12 + r) 0 = f.flow_rate / 256 ^ r % 256)
    ∧ extract_meta_data (fill_meta_data f) = (f.flow_id, f.flow_size, f.flow_tos, f.flow_rate)
    ∧ (∀ (plan : Plan) (c' : Client) (s j : Nat) (t_flow t_req : timeval),
        (f.flow_id ≠ 0 →
          (listen_connection plan c' s j (ReadResult.ok (fill_meta_data f)) t_flow
              t_req).flow_stop_time = c'.flow_stop_time.set (f.flow_id - 1) t_flow
          ∧ (listen_connection plan c' s j (ReadResult.ok (fill_meta_data f)) t_flow
              t_req).req_stop_time = stamp_req_stop plan c'.req_stop_time f.flow_id t_req)
        ∧ (f.flow_id = 0 →
          (listen_connection plan c' s j (ReadResult.ok (fill_meta_data f)) t_flow
              t_req).flow_stop_time = c'.flow_stop_time
          ∧ (listen_connection plan c' s j (ReadResult.ok (fill_meta_data f)) t_flow
              t_req).req_stop_time = c'.req_stop_time)) := by
  have hid : u32_at (fill_meta_data f) 0 = f.flow_id := by
    simp [u32_at, fill_meta_data, u32_bytes]; omega
  refine ⟨rfl, by simp [fill_meta_data, u32_bytes], ?_, ?_, ?_, ?_, ?_, ?_, ?_⟩
  · intro b hb
    simp only [fill_meta_data, List.mem_append] at hb
    rcases hb with ((hb | hb) | hb) | hb <;> exact u32_bytes_lt _ b hb
  · intro r hr
    interval_cases r <;> simp [fill_meta_data, u32_bytes]
  · intro r hr
    interval_cases r <;> simp [fill_meta_data, u32_bytes]
  · intro r hr
    interval_cases r <;> simp [fill_meta_data, u32_bytes]
  · intro r hr
    interval_cases r <;> simp [fill_meta_data, u32_bytes]
  · have e2 : u32_at (fill_meta_data f) 4 = f.flow_size := by
      simp [u32_at, fill_meta_data, u32_bytes]; omega
    have e3 : u32_at (fill_meta_data f) 8 = f.flow_tos := by
      simp [u32_at, fill_meta_data, u32_bytes]; omega
    have e4 : u32_at (fill_meta_data f) 12 = f.flow_rate := by
      simp [u32_at, fill_meta_data, u32_bytes]; omega
    simp only [extract_meta_data, hid, e2, e3, e4]
  · intro plan c' s j t_flow t_req
    constructor
    · intro hne
      simp only [listen_connection, hid, if_neg hne, and_self]
    · intro h0
      simp only [listen_connection, hid, if_pos h0, and_self]

/-- Witness of `C12_descriptor_roundtrip`: the descriptor of flow 258 (size 65536, tos 252,
rate 1000). -/
theorem C12_descriptor_roundtrip_witness :
    fill_meta_data ⟨0, 0, 258, 65536, 252, 1000⟩
      = [2, 1, 0, 0, 0, 0, 1, 0, 252, 0, 0, 0, 232, 3, 0, 0]
    ∧ extract_meta_data (fill_meta_data ⟨0, 0, 258, 65536, 252, 1000⟩)
      = (258, 65536, 252, 1000) :=
  ⟨by decide,
   (C12_descriptor_roundtrip demo_client ⟨0, 0, 258, 65536, 252, 1000⟩ ⟨7, 0⟩
      (by decide) (by decide) (by decide) (by decide)).2.2.2.2.2.2.2.1⟩

/-! ## C13: the RCT column of the per-request log -/

/-- C13 as stated fails: in the run of `demo_plan` in which request 0 is dispatched at
second 7 and no response ever arrives, `req_start_time[0]` is stamped, `req_stop_time[0]`
is zero, the request is reported as unfinished, and the `rct_us` written to the log is
`2^64 - 7000000`, not 0. -/
theorem C13_unfinished_rct_counterexample :
    (run_requests demo_plan 0 covered_envs demo_client).2.1.req_start_time = [⟨7, 0⟩]
    ∧ (run_requests demo_plan 0 covered_envs demo_client).2.1.req_stop_time = [⟨0, 0⟩]
    ∧ (print_statistic demo_plan
        (run_requests demo_plan 0 covered_envs demo_client).2.1).unfinished_requests = [0]
    ∧ (print_statistic demo_plan (run_requests demo_plan 0 covered_envs demo_client).2.1).rct_log
        = [{ size := 100, rct_us := 18446744073702551616, dscp := 0, fanout := 1, rate := 0 }] := by
  decide

theorem print_statistic_rct_log (plan : Plan) (c : Client) (i : Nat)
    (hi : i < plan.req_total_num.toNat) :
    (print_statistic plan c).rct_log[i]? = some (request_line plan c i) := by
  simp [print_statistic, List.getElem?_range hi, hi]

/-- C13 (amended): for every request `i`, the line `print_statistic` writes holds
`rct_us = req_stop_time[i] - req_start_time[i]` in microseconds, taken modulo 2^64.
This is the elapsed time when the stop time is not before the start time (a finished
request); it is 0 when both times are zero (a request that was never dispatched); and it
is `2^64` minus the start time in microseconds, hence not 0, when the stop time is zero
and the start time was stamped.  A request is reported as unfinished exactly when its
stop time is zero. -/
theorem C13_rct_us (plan : Plan) (c : Client) (i : Nat) (hi : i < plan.req_total_num.toNat) :
    (print_statistic plan c).rct_log[i]? = some (request_line plan c i)
    ∧ (request_line plan c i).rct_us
        = toU64 ((c.req_stop_time.getD i ⟨0, 0⟩).us - (c.req_start_time.getD i ⟨0, 0⟩).us)
    ∧ ((c.req_start_time.getD i ⟨0, 0⟩).us ≤ (c.req_stop_time.getD i ⟨0, 0⟩).us →
        (c.req_stop_time.getD i ⟨0, 0⟩).us - (c.req_start_time.getD i ⟨0, 0⟩).us
          < 18446744073709551616 →
        ((request_line plan c i).rct_us : Int)
          = (c.req_stop_time.getD i ⟨0, 0⟩).us - (c.req_start_time.getD i ⟨0, 0⟩).us)
    ∧ ((c.req_stop_time.getD i ⟨0, 0⟩).is_zero = true →
        (c.req_start_time.getD i ⟨0, 0⟩).is_zero = true →
        (request_line plan c i).rct_us = 0)
    ∧ ((c.req_stop_time.getD i ⟨0, 0⟩).is_zero = true →
        0 < (c.req_start_time.getD i ⟨0, 0⟩).us →
        (c.req_start_time.getD i ⟨0, 0⟩).us < 18446744073709551616 →
        ((request_line plan c i).rct_us : Int)
          = 18446744073709551616 - (c.req_start_time.getD i ⟨0, 0⟩).us
        ∧ (request_line plan c i).rct_us ≠ 0)
    ∧ (i ∈ (print_statistic plan c).unfinished_requests
        ↔ (c.req_stop_time.getD i ⟨0, 0⟩).is_zero = true) := by
  have hrct : (request_line plan c i).rct_us
      = toU64 ((c.req_stop_time.getD i ⟨0, 0⟩).us - (c.req_start_time.getD i ⟨0, 0⟩).us) := by
    simp only [request_line, diff_us, timeval.us]
    congr 1
    ring
  have hzero : ∀ t : timeval, t.is_zero = true → t.us = 0 := by
    intro t ht
    simp only [timeval.is_zero, Bool.and_eq_true, beq_iff_eq] at ht
    simp [timeval.us, ht.1, ht.2]
  refine ⟨print_statistic_rct_log plan c i hi, hrct, ?_, ?_, ?_, ?_⟩
  · intro h1 h2
    rw [hrct]; unfold toU64; omega
  · intro h1 h2
    rw [hrct, hzero _ h1, hzero _ h2]; rfl
  · intro h1 h2 h3
    rw [hrct, hzero _ h1]
    unfold toU64
    constructor <;> omega
  · simp only [print_statistic, List.mem_filter, List.mem_range]
    constructor
    · intro h; exact h.2
    · intro h; exact ⟨hi, h⟩

/-- Witness of `C13_rct_us`: the line of request 0 in the run of `demo_plan` without
responses. -/
theorem C13_rct_us_witness :
    (request_line demo_plan (run_requests demo_plan 0 covered_envs demo_client).2.1 0).rct_us
      = toU64 (((run_requests demo_plan 0 covered_envs demo_client).2.1.req_stop_time.getD 0
            ⟨0, 0⟩).us
          - ((run_requests demo_plan 0 covered_envs demo_client).2.1.req_start_time.getD 0
            ⟨0, 0⟩).us) :=
  (C13_rct_us demo_plan (run_requests demo_plan 0 covered_envs demo_client).2.1 0
    (by decide)).2.1

/-! ## C14: what `read_config` accepts -/

theorem read_line_spec (g g1 : Config) (l : ConfigLine) (h : read_line g l = Except.ok g1)
    (hg : g.legal) :
    l.legal ∧ g1.legal
    ∧ (g1.load_positive, g1.period_us)
        = (match l with
           | ConfigLine.load positive period => (positive, period)
           | _ => (g.load_positive, g.period_us))
    ∧ g1.num_server
        = g.num_server + (match l with | ConfigLine.server _ => 1 | _ => 0)
    ∧ g1.req_total_num
        = (match l with | ConfigLine.num_reqs n => n | _ => g.req_total_num) := by
  obtain ⟨h1, h2, h3, h4, h5, h6⟩ := hg
  cases l with
  | server port =>
    simp only [read_line, Except.ok.injEq] at h
    subst h
    exact ⟨trivial, ⟨h1, h2, h3, h4, h5, h6⟩, rfl, rfl, rfl⟩
  | load positive period =>
    simp only [read_line, Except.ok.injEq] at h
    subst h
    exact ⟨trivial, ⟨h1, h2, h3, h4, h5, h6⟩, rfl, rfl, rfl⟩
  | num_reqs n =>
    simp only [read_line, Except.ok.injEq] at h
    subst h
    exact ⟨trivial, ⟨h1, h2, h3, h4, h5, h6⟩, rfl, rfl, rfl⟩
  | req_size_dist =>
    simp only [read_line, Except.ok.injEq] at h
    subst h
    exact ⟨trivial, ⟨h1, h2, h3, h4, h5, h6⟩, rfl, rfl, rfl⟩
  | other =>
    simp only [read_line, Except.ok.injEq] at h
    subst h
    exact ⟨trivial, ⟨h1, h2, h3, h4, h5, h6⟩, rfl, rfl, rfl⟩
  | fanout size prob =>
    simp only [read_line] at h
    by_cases hs : size < 1
    · rw [if_pos hs] at h; exact absurd h (by simp [error])
    · rw [if_neg hs] at h
      by_cases hp : prob < 0
      · rw [if_pos hp] at h; exact absurd h (by simp [error])
      · rw [if_neg hp] at h
        simp only [Except.ok.injEq] at h
        subst h
        refine ⟨⟨by omega, by omega⟩, ⟨?_, ?_, h3, h4, h5, h6⟩, rfl, rfl, rfl⟩
        · intro x hx
          rcases List.mem_append.mp hx with hx | hx
          · exact h1 x hx
          · rw [List.mem_singleton.mp hx]; omega
        · intro x hx
          rcases List.mem_append.mp hx with hx | hx
          · exact h2 x hx
          · rw [List.mem_singleton.mp hx]; omega
  | service dscp prob =>
    simp only [read_line] at h
    by_cases hs : dscp < 0 ∨ dscp ≥ 64
    · rw [if_pos hs] at h; exact absurd h (by simp [error])
    · rw [if_neg hs] at h
      by_cases hp : prob < 0
      · rw [if_pos hp] at h; exact absurd h (by simp [error])
      · rw [if_neg hp] at h
        simp only [Except.ok.injEq] at h
        subst h
        refine ⟨⟨by omega, by omega, by omega⟩, ⟨h1, h2, ?_, ?_, h5, h6⟩, rfl, rfl, rfl⟩
        · intro x hx
          rcases List.mem_append.mp hx with hx | hx
          · exact h3 x hx
          · rw [List.mem_singleton.mp hx]; omega
        · intro x hx
          rcases List.mem_append.mp hx with hx | hx
          · exact h4 x hx
          · rw [List.mem_singleton.mp hx]; omega
  | rate value prob =>
    simp only [read_line] at h
    by_cases hs : value < 0
    · rw [if_pos hs] at h; exact absurd h (by simp [error])
    · rw [if_neg hs] at h
      by_cases hp : prob < 0
      · rw [if_pos hp] at h; exact absurd h (by simp [error])
      · rw [if_neg hp] at h
        simp only [Except.ok.injEq] at h
        subst h
        refine ⟨⟨by omega, by omega⟩, ⟨h1, h2, h3, h4, ?_, ?_⟩, rfl, rfl, rfl⟩
        · intro x hx
          rcases List.mem_append.mp hx with hx | hx
          · exact h5 x hx
          · rw [List.mem_singleton.mp hx]; omega
        · intro x hx
          rcases List.mem_append.mp hx with hx | hx
          · exact h6 x hx
          · rw [List.mem_singleton.mp hx]; omega

theorem read_lines_spec (ls : List ConfigLine) :
    ∀ (g g2 : Config), read_lines ls g = Except.ok g2 → g.legal →
      (∀ l ∈ ls, l.legal) ∧ g2.legal
      ∧ g2.num_server = g.num_server + count_server ls
      ∧ (count_load ls = 0 →
          (g2.load_positive, g2.period_us) = (g.load_positive, g.period_us))
      ∧ (count_load ls = 1 → ∀ positive period, ConfigLine.load positive period ∈ ls →
          (g2.load_positive, g2.period_us) = (positive, period)) := by
  induction ls with
  | nil =>
    intro g g2 h hg
    simp only [read_lines, Except.ok.injEq] at h
    subst h
    refine ⟨by simp, hg, by simp [count_server], fun _ => rfl, ?_⟩
    intro _ p per hmem
    simp at hmem
  | cons l ls ih =>
    intro g g2 h hg
    rw [read_lines] at h
    cases hl : read_line g l with
    | error e => rw [hl] at h; simp at h
    | ok g1 =>
      rw [hl] at h
      simp only at h
      obtain ⟨k1, k2, k3, k4, _⟩ := read_line_spec g g1 l hl hg
      obtain ⟨i1, i2, i3, i4, i5⟩ := ih g1 g2 h k2
      refine ⟨?_, i2, ?_, ?_, ?_⟩
      · intro l' hl'
        rcases List.mem_cons.mp hl' with rfl | hl'
        · exact k1
        · exact i1 l' hl'
      · rw [i3, k4]
        cases l <;> simp [count_server, List.countP_cons]
        omega
      · intro hc
        cases l with
        | load positive period => simp [count_load, List.countP_cons] at hc
        | server port =>
          rw [i4 (by simpa [count_load, List.countP_cons] using hc)]; exact k3
        | num_reqs n =>
          rw [i4 (by simpa [count_load, List.countP_cons] using hc)]; exact k3
        | req_size_dist =>
          rw [i4 (by simpa [count_load, List.countP_cons] using hc)]; exact k3
        | fanout size prob =>
          rw [i4 (by simpa [count_load, List.countP_cons] using hc)]; exact k3
        | service dscp prob =>
          rw [i4 (by simpa [count_load, List.countP_cons] using hc)]; exact k3
        | rate value prob =>
          rw [i4 (by simpa [count_load, List.countP_cons] using hc)]; exact k3
        | other =>
          rw [i4 (by simpa [count_load, List.countP_cons] using hc)]; exact k3
      · intro hc p per hmem
        cases l with
        | load positive period =>
          have hc0 : count_load ls = 0 := by
            simpa [count_load, List.countP_cons] using hc
          rcases List.mem_cons.mp hmem with heq | hmem
          · injection heq with e1 e2
            rw [i4 hc0, k3, e1, e2]
          · exfalso
            unfold count_load at hc0
            rw [List.countP_eq_zero] at hc0
            exact absurd rfl (hc0 _ hmem)
        | server port =>
          rcases List.mem_cons.mp hmem with heq | hmem
          · cases heq
          · exact i5 (by simpa [count_load, List.countP_cons] using hc) p per hmem
        | num_reqs n =>
          rcases List.mem_cons.mp hmem with heq | hmem
          · cases heq
          · exact i5 (by simpa [count_load, List.countP_cons] using hc) p per hmem
        | req_size_dist =>
          rcases List.mem_cons.mp hmem with heq | hmem
          · cases heq
          · exact i5 (by simpa [count_load, List.countP_cons] using hc) p per hmem
        | fanout size prob =>
          rcases List.mem_cons.mp hmem with heq | hmem
          · cases heq
          · exact i5 (by simpa [count_load, List.countP_cons] using hc) p per hmem
        | service dscp prob =>
          rcases List.mem_cons.mp hmem with heq | hmem
          · cases heq
          · exact i5 (by simpa [count_load, List.countP_cons] using hc) p per hmem
        | rate value prob =>
          rcases List.mem_cons.mp hmem with heq | hmem
          · cases heq
          · exact i5 (by simpa [count_load, List.countP_cons] using hc) p per hmem
        | other =>
          rcases List.mem_cons.mp hmem with heq | hmem
          · cases heq
          · exact i5 (by simpa [count_load, List.countP_cons] using hc) p per hmem

theorem apply_defaults_spec (g : Config) (hg : g.legal) :
    (apply_defaults g).legal
    ∧ (apply_defaults g).load_positive = g.load_positive
    ∧ (apply_defaults g).period_us = g.period_us
    ∧ (apply_defaults g).num_server = g.num_server
    ∧ (apply_defaults g).req_total_num = g.req_total_num := by
  obtain ⟨h1, h2, h3, h4, h5, h6⟩ := hg
  unfold apply_defaults
  simp only
  split_ifs <;>
    refine ⟨⟨?_, ?_, ?_, ?_, ?_, ?_⟩, rfl, rfl, rfl, rfl⟩ <;>
    first
      | assumption
      | (intro x hx; rw [List.mem_singleton.mp hx]; try decide)

theorem check_load_spec (g g2 : Config) (h : check_load g = Except.ok g2) :
    g2 = g ∧ g.load_positive = true ∧ 1 ≤ g.period_us := by
  unfold check_load at h
  by_cases hp : g.load_positive = true
  · rw [if_pos hp] at h
    by_cases hq : g.period_us ≤ 0
    · rw [if_pos hq] at h; exact absurd h (by simp [error])
    · rw [if_neg hq] at h
      simp only [Except.ok.injEq] at h
      exact ⟨h.symm, hp, by omega⟩
  · rw [if_neg hp] at h; exact absurd h (by simp [error])

theorem read_config_ok (lines : List ConfigLine) (g : Config)
    (h : read_config lines = Except.ok g) :
    lines.any ConfigLine.is_other = false
    ∧ 1 ≤ count_server lines ∧ count_load lines = 1 ∧ count_num_reqs lines = 1
    ∧ count_dist lines = 1
    ∧ ∃ g1, read_lines lines Config.initial = Except.ok g1
        ∧ check_load (apply_defaults g1) = Except.ok g := by
  unfold read_config at h
  by_cases h1 : lines.any ConfigLine.is_other = true
  · rw [if_pos h1] at h; exact absurd h (by simp [error])
  rw [if_neg h1] at h
  by_cases h2 : count_server lines < 1
  · rw [if_pos h2] at h; exact absurd h (by simp [error])
  rw [if_neg h2] at h
  by_cases h3 : count_load lines ≠ 1
  · rw [if_pos h3] at h; exact absurd h (by simp [error])
  rw [if_neg h3] at h
  by_cases h4 : count_num_reqs lines ≠ 1
  · rw [if_pos h4] at h; exact absurd h (by simp [error])
  rw [if_neg h4] at h
  by_cases h5 : count_dist lines ≠ 1
  · rw [if_pos h5] at h; exact absurd h (by simp [error])
  rw [if_neg h5] at h
  cases hr : read_lines lines Config.initial with
  | error e => rw [hr] at h; simp at h
  | ok g1 =>
    rw [hr] at h
    exact ⟨by simpa using h1, by omega, by omega, by omega, by omega, g1, rfl, h⟩

/-- C14: `read_config` always ends, with the globals or with a fatal error, and it
accepts a configuration only if every fanout size is at least 1, every service DSCP is
in 0..63, every rate value is at least 0, every fanout, service and rate weight is at
least 0, `load > 0` holds and the derived `period_us` is at least 1 (for the lines of
the file, for the `load` line, and for the arrays and globals that are handed to the
planner).  A configuration with a line that violates one of the conditions, or whose
load is not positive or whose period is below 1, ends in a fatal error of
`read_config`, and `main` then ends before `set_req_variables` plans anything. -/
theorem C14_read_config_accepts (lines : List ConfigLine) :
    (∀ g, read_config lines = Except.ok g →
      (∀ size prob, ConfigLine.fanout size prob ∈ lines → 1 ≤ size ∧ 0 ≤ prob)
      ∧ (∀ dscp prob, ConfigLine.service dscp prob ∈ lines → 0 ≤ dscp ∧ dscp ≤ 63 ∧ 0 ≤ prob)
      ∧ (∀ value prob, ConfigLine.rate value prob ∈ lines → 0 ≤ value ∧ 0 ≤ prob)
      ∧ (∀ positive period, ConfigLine.load positive period ∈ lines →
          positive = true ∧ 1 ≤ period ∧ g.period_us = period)
      ∧ g.load_positive = true ∧ 1 ≤ g.period_us
      ∧ g.legal
      ∧ 1 ≤ g.num_server)
    ∧ ((∃ l ∈ lines, ¬ l.legal) → ∃ e, read_config lines = Except.error e)
    ∧ ((∃ positive period, ConfigLine.load positive period ∈ lines
          ∧ (positive = false ∨ period ≤ 0)) → ∃ e, read_config lines = Except.error e)
    ∧ ((∃ g, read_config lines = Except.ok g) ∨ (∃ e, read_config lines = Except.error e))
    ∧ (∀ e samples garbage, read_config lines = Except.error e →
        configure_and_plan lines samples garbage = Except.error e) := by
  have hacc : ∀ g, read_config lines = Except.ok g →
      (∀ l ∈ lines, l.legal)
      ∧ (∀ positive period, ConfigLine.load positive period ∈ lines →
          positive = true ∧ 1 ≤ period ∧ g.period_us = period)
      ∧ g.load_positive = true ∧ 1 ≤ g.period_us ∧ g.legal ∧ 1 ≤ g.num_server := by
    intro g h
    obtain ⟨_, hs, hl, _, _, g1, hr, hc⟩ := read_config_ok lines g h
    have hinit : Config.initial.legal := by
      refine ⟨?_, ?_, ?_, ?_, ?_, ?_⟩ <;> intro x hx <;> simp [Config.initial] at hx
    obtain ⟨r1, r2, r3, _, r5⟩ := read_lines_spec lines Config.initial g1 hr hinit
    obtain ⟨d1, d2, d3, d4, _⟩ := apply_defaults_spec g1 r2
    obtain ⟨c1, c2, c3⟩ := check_load_spec _ g hc
    subst c1
    refine ⟨r1, ?_, c2, c3, d1, ?_⟩
    · intro p per hmem
      have := r5 hl p per hmem
      rw [d2] at c2
      rw [d3] at c3
      have e1 := congrArg Prod.fst this
      have e2 := congrArg Prod.snd this
      simp only at e1 e2
      rw [d3]
      exact ⟨by rw [← e1]; exact c2, by rw [← e2]; exact c3, e2⟩
    · rw [d4, r3]
      simp only [Config.initial]
      omega
  have htotal : (∃ g, read_config lines = Except.ok g)
      ∨ (∃ e, read_config lines = Except.error e) := by
    cases h : read_config lines with
    | ok g => exact Or.inl ⟨g, rfl⟩
    | error e => exact Or.inr ⟨e, rfl⟩
  refine ⟨?_, ?_, ?_, htotal, ?_⟩
  rotate_right
  · intro e samples garbage h
    unfold configure_and_plan
    rw [h]
  · intro g h
    obtain ⟨a1, a2, a3, a4, a5, a6⟩ := hacc g h
    exact ⟨fun size prob hm => a1 _ hm, fun dscp prob hm => a1 _ hm,
      fun value prob hm => a1 _ hm, a2, a3, a4, a5, a6⟩
  · rintro ⟨l, hl, hbad⟩
    rcases htotal with ⟨g, hg⟩ | he
    · exact absurd ((hacc g hg).1 l hl) hbad
    · exact he
  · rintro ⟨p, per, hmem, hbad⟩
    rcases htotal with ⟨g, hg⟩ | he
    · obtain ⟨b1, b2, _⟩ := (hacc g hg).2.1 p per hmem
      rcases hbad with hb | hb
      · rw [hb] at b1; exact absurd b1 (by decide)
      · omega
    · exact he

/-- Witness of `C14_read_config_accepts`: `demo_config` is accepted, with a positive load,
a period of at least 1 us and at least one server. -/
theorem C14_read_config_accepts_witness :
    ∃ g, read_config demo_config = Except.ok g
      ∧ g.load_positive = true ∧ 1 ≤ g.period_us ∧ 1 ≤ g.num_server :=
  ⟨_, rfl,
   ((C14_read_config_accepts demo_config).1 _ rfl).2.2.2.2.1,
   ((C14_read_config_accepts demo_config).1 _ rfl).2.2.2.2.2.1,
   ((C14_read_config_accepts demo_config).1 _ rfl).2.2.2.2.2.2.2⟩

/-! ## C16: when `run_request` grows a pool -/

/-- C16 as stated fails: with `k = 1` flow for the server and `available_len =
4294967295`, the unsigned difference `1 - 4294967295` is 2, `max(2, 0)` is 2, and the
`int num_conn_new` is 2: `run_request` calls `Insert_Conn_List` with the count 2
although `available_len >= k`. -/
theorem C16_huge_available_len_counterexample :
    (demo_plan.req_server_flow_count.getD 0 []).getD 0 0 = 1
    ∧ (demo_wrapped_client.list 0).available_len = 4294967295
    ∧ num_conn_new 1 4294967295 = 2
    ∧ (run_request demo_plan demo_env demo_wrapped_client 0).inserted = [(0, 2)] := by
  decide

theorem num_conn_new_spec (k : Int) (al : Nat) (hk0 : 0 < k) (hk1 : k < 2147483648)
    (hal : (al : Int) ≤ k + 2147483648) :
    (0 < num_conn_new k al ↔ (al : Int) < k)
    ∧ ((al : Int) < k → num_conn_new k al = k - al)
    ∧ (k ≤ (al : Int) → num_conn_new k al ≤ 0) := by
  unfold num_conn_new maxU32Zero toU32 wrapI32
  split_ifs <;> omega

theorem run_request_loop_inserted (plan : Plan) (env : ReqEnv) (req_id s : Nat) (a : ReqAcc)
    (hk : (plan.req_server_flow_count.getD req_id []).getD s 0 ≠ 0) :
    (run_request_loop plan env req_id [s] a).1.inserted
      = if 0 < num_conn_new ((plan.req_server_flow_count.getD req_id []).getD s 0)
            (a.client.list s).available_len
        then a.inserted ++ [(s, num_conn_new ((plan.req_server_flow_count.getD req_id []).getD s 0)
            (a.client.list s).available_len)]
        else a.inserted := by
  rw [run_request_loop]
  simp only [if_neg hk, gt_iff_lt]
  by_cases hn : 0 < num_conn_new ((plan.req_server_flow_count.getD req_id []).getD s 0)
      (a.client.list s).available_len
  · simp only [if_pos hn]
    split
    · rfl
    · split <;> simp [run_request_loop]
  · simp only [if_neg hn]
    split
    · rfl
    · split <;> simp [run_request_loop]

/-- C16 (amended): for every server `s` with `k = req_server_flow_count[req][s] > 0` and
every `available_len` that does not exceed `k + 2^31` (every pool of fewer than 2^31
idle connections), the step of `run_request` for `s` calls `Insert_Conn_List` exactly
when `available_len < k`, and then with the count `k - available_len`; when
`k <= available_len <= k + 2^31` the `int num_conn_new` is not positive and no insert
is attempted. -/
theorem C16_insert_when_short (plan : Plan) (env : ReqEnv) (req_id s : Nat) (a : ReqAcc)
    (hk0 : 0 < (plan.req_server_flow_count.getD req_id []).getD s 0)
    (hk1 : (plan.req_server_flow_count.getD req_id []).getD s 0 < 2147483648)
    (hal : ((a.client.list s).available_len : Int)
      ≤ (plan.req_server_flow_count.getD req_id []).getD s 0 + 2147483648) :
    (((a.client.list s).available_len : Int)
        < (plan.req_server_flow_count.getD req_id []).getD s 0 →
      (run_request_loop plan env req_id [s] a).1.inserted
        = a.inserted ++ [(s, (plan.req_server_flow_count.getD req_id []).getD s 0
            - (a.client.list s).available_len)])
    ∧ ((plan.req_server_flow_count.getD req_id []).getD s 0
        ≤ ((a.client.list s).available_len : Int) →
      (run_request_loop plan env req_id [s] a).1.inserted = a.inserted
      ∧ num_conn_new ((plan.req_server_flow_count.getD req_id []).getD s 0)
          (a.client.list s).available_len ≤ 0) := by
  obtain ⟨h1, h2, h3⟩ := num_conn_new_spec _ _ hk0 hk1 hal
  have hins := run_request_loop_inserted plan env req_id s a (by omega)
  constructor
  · intro hlt
    rw [hins, if_pos (h1.mpr hlt), h2 hlt]
  · intro hge
    have := h3 hge
    rw [hins, if_neg (by omega)]
    exact ⟨rfl, this⟩

/-- Witness of `C16_insert_when_short`: with all connections of the single pool busy
(`available_len = 0`) and one flow for the server, the step inserts one connection. -/
theorem C16_insert_when_short_witness :
    (run_request_loop demo_plan demo_env 0 [0]
        { client := demo_busy_client, flow_req := [], inserted := [] }).1.inserted
      = [] ++ [(0, (demo_plan.req_server_flow_count.getD 0 []).getD 0 0
          - ((demo_busy_client.list 0).available_len : Int))] :=
  (C16_insert_when_short demo_plan demo_env 0 0
    { client := demo_busy_client, flow_req := [], inserted := [] }
    (by decide) (by decide) (by decide)).1 (by decide)

/-! ## C15: the ids of a request when nothing aborted before it -/

theorem run_request_dispatched (plan : Plan) (env : ReqEnv) (c : Client) (req_id : Nat)
    (h : (run_request plan env c req_id).dispatched = true) :
    ((run_request plan env c req_id).flow_req.length : Int) = plan.req_fanout.getD req_id 0 := by
  unfold run_request at h ⊢
  by_cases h1 : env.malloc_ok = false
  · rw [if_pos h1] at h; exact absurd h Bool.false_ne_true
  · rw [if_neg h1] at h ⊢
    simp only at h ⊢
    by_cases h2 : (run_request_loop plan env req_id (List.range plan.num_server)
        { client := c, flow_req := [], inserted := [] }).2 = false
    · rw [if_pos h2] at h; exact absurd h Bool.false_ne_true
    · rw [if_neg h2] at h ⊢
      by_cases h3 : ((run_request_loop plan env req_id (List.range plan.num_server)
          { client := c, flow_req := [], inserted := [] }).1.flow_req.length : Int)
            ≠ plan.req_fanout.getD req_id 0
      · rw [if_pos h3] at h; exact absurd h Bool.false_ne_true
      · rw [if_neg h3]
        exact not_not.mp h3

theorem run_requests_loop_request_ids (plan : Plan) (usleep_overhead_us : Int)
    (envs : Nat → IterEnv) (n : Nat) :
    ∀ (i : Nat) (c : Client) (s : Int) (N0 : Nat) (logs : List IterLog),
      logs = (run_requests_loop plan usleep_overhead_us envs n i c s).1 →
      c.global_flow_id = wrapI32 (N0 : Int) →
      ∀ (k : Nat) (hk : k < logs.length),
        (logs[k]).request.flow_req.map Flow.flow_id
          = (List.range' (N0 + ((logs.take k).map (fun lg => lg.request.flow_req.length)).sum)
              (logs[k]).request.flow_req.length).map (fun m => (m + 1) % 4294967296)
        ∧ ((logs[k]).request.dispatched = true →
            ((logs[k]).request.flow_req.length : Int) = plan.req_fanout.getD (i + k) 0) := by
  induction n with
  | zero =>
    intro i c s N0 logs hlogs _ k hk
    subst hlogs
    simp [run_requests_loop] at hk
  | succ n ih =>
    intro i c s N0 logs hlogs hg k hk
    rw [run_requests_loop] at hlogs
    simp only at hlogs
    obtain ⟨h1, h2⟩ := run_request_ids plan (envs i).env c i N0 hg
    have hrest := ih (i + 1)
      (listen_all plan (run_request plan (envs i).env c i).client (envs i).listeners)
      (pace usleep_overhead_us s (plan.req_sleep_us.getD i 0)
        (duration_us (envs i).req_tv_start (envs i).req_tv_end)).1
      (N0 + (run_request plan (envs i).env c i).flow_req.length) _ rfl
      (by rw [listen_all_global_flow_id]; exact h1)
    subst hlogs
    cases k with
    | zero =>
      simp only [List.getElem_cons_zero, List.take_zero, List.map_nil, List.sum_nil,
        Nat.add_zero]
      exact ⟨h2, run_request_dispatched plan (envs i).env c i⟩
    | succ k =>
      have hk' := hrest k (by simpa using hk)
      simp only [List.getElem_cons_succ, List.take_succ_cons, List.map_cons, List.sum_cons]
      have hidx : i + (k + 1) = i + 1 + k := by omega
      rw [hidx, ← Nat.add_assoc]
      exact hk'

theorem flow_offset_succ (fanouts : List Int) (i : Nat) (hi : i < fanouts.length) :
    flow_offset fanouts (i + 1) = flow_offset fanouts i + (fanouts.getD i 0).toNat := by
  have hlen : i < (fanouts.map Int.toNat).length := by rw [List.length_map]; exact hi
  unfold flow_offset
  rw [List.map_take, List.map_take, List.sum_take_succ _ _ hlen, List.getElem_map,
    List.getD_eq_getElem _ _ hi]

theorem take_map_sum_eq (lens : List Nat) (fanouts : List Int) :
    ∀ (i : Nat), i ≤ lens.length → i ≤ fanouts.length →
      (∀ r, r < i → ((lens.getD r 0 : Nat) : Int) = fanouts.getD r 0) →
      (lens.take i).sum = flow_offset fanouts i := by
  intro i
  induction i with
  | zero => intro _ _ _; simp [flow_offset]
  | succ i ih =>
    intro h1 h2 h
    have e := ih (by omega) (by omega) (fun r hr => h r (by omega))
    have hi := h i (by omega)
    have hl : i < lens.length := by omega
    rw [List.sum_take_succ _ _ hl, flow_offset_succ _ _ (by omega), e]
    rw [List.getD_eq_getElem _ _ hl] at hi
    omega

theorem flow_offset_le (fanouts : List Int) (i : Nat) :
    flow_offset fanouts i ≤ (fanouts.map Int.toNat).sum := by
  unfold flow_offset
  rw [List.map_take]
  have := List.sum_take_add_sum_drop (fanouts.map Int.toNat) i
  omega

theorem planned_blocks (num_server : Nat) (req_total_num : Int)
    (samples : Nat → Sample) (garbage : Nat → Int) (plan : Plan)
    (hplan : set_req_variables num_server req_total_num samples garbage = some plan)
    (hns : 1 ≤ num_server) (hreq : 1 ≤ req_total_num)
    (hfan : ∀ i, i < req_total_num.toNat → 1 ≤ (samples i).fanout)
    (htot : ((List.range req_total_num.toNat).map (fun i => (samples i).fanout)).sum
      < 2147483648) :
    plan.req_total_num = req_total_num
    ∧ plan.req_fanout.length = req_total_num.toNat
    ∧ (∀ x ∈ plan.req_fanout, 1 ≤ x)
    ∧ ((plan.req_fanout.map Int.toNat).sum : Int) = plan.flow_total_num
    ∧ plan.flow_total_num < 2147483648
    ∧ plan.flow_req_id = request_blocks plan.req_fanout 0 := by
  obtain ⟨plan', hplan', _, hrt, hfo, htn, _, hfill⟩ :=
    set_req_variables_returns num_server req_total_num samples garbage hns hreq hfan htot
  rw [hplan] at hplan'
  cases hplan'
  have hge : ∀ x ∈ plan.req_fanout, 1 ≤ x := by
    intro x hx
    rw [hfo] at hx
    obtain ⟨i, hi, rfl⟩ := List.mem_map.mp hx
    exact hfan i (List.mem_range.mp hi)
  have hnn : ∀ x ∈ plan.req_fanout, 0 ≤ x := fun x hx => by have := hge x hx; omega
  have hsum : ((plan.req_fanout.map Int.toNat).sum : Int) = plan.flow_total_num := by
    rw [toNat_sum _ hnn, htn, hfo]
  refine ⟨hrt, by rw [hfo]; simp, hge, hsum, by rw [htn]; exact htot, ?_⟩
  have hspec := fill_flow_req_id_spec plan.req_fanout 0 []
    ((List.range plan.flow_total_num.toNat).map garbage)
    (by simp only [List.length_map, List.length_range]; omega)
  simp only [List.nil_append, List.length_nil] at hspec
  rw [hfill, hspec]
  simp only
  rw [List.drop_eq_nil_of_le (by simp only [List.length_map, List.length_range]; omega)]
  simp

theorem stamp_req_stop_of_index (plan : Plan) (stop : List timeval) (flow_id i : Nat)
    (now : timeval) (h : plan.flow_req_id[flow_id - 1]? = some (i : Int)) :
    stamp_req_stop plan stop flow_id now = stop.set i now := by
  unfold stamp_req_stop
  rw [h]
  simp

/-- C15: for a plan made by `set_req_variables` (fanouts of at least 1, fewer than 2^31
flows in total) and a run from `global_flow_id = 0` in which the requests `0 .. i` are
all dispatched, the flows of request `i` carry exactly the ids `P+1 .. P+req_fanout[i]`
with `P` the sum of `req_fanout[r]` over `r < i`.  Every such id lies in
`1 .. flow_total_num` and `flow_req_id[flow_id - 1] = i`, so a listener that handles the
response with this `flow_id` stamps `flow_stop_time[flow_id - 1]` and
`req_stop_time[i]`. -/
theorem C15_ids_of_dispatched_request (num_server : Nat) (req_total_num : Int)
    (samples : Nat → Sample) (garbage : Nat → Int) (plan : Plan)
    (hplan : set_req_variables num_server req_total_num samples garbage = some plan)
    (hns : 1 ≤ num_server) (hreq : 1 ≤ req_total_num)
    (hfan : ∀ i, i < req_total_num.toNat → 1 ≤ (samples i).fanout)
    (htot : ((List.range req_total_num.toNat).map (fun i => (samples i).fanout)).sum
      < 2147483648)
    (usleep_overhead_us : Int) (envs : Nat → IterEnv) (c : Client)
    (hg : c.global_flow_id = 0) (i : Nat)
    (hi : i < (run_requests plan usleep_overhead_us envs c).1.length)
    (hdisp : ∀ (r : Nat) (hr : r < (run_requests plan usleep_overhead_us envs c).1.length),
      r ≤ i → ((run_requests plan usleep_overhead_us envs c).1[r]).request.dispatched = true) :
    ((run_requests plan usleep_overhead_us envs c).1[i]).request.flow_req.map Flow.flow_id
      = List.range' (flow_offset plan.req_fanout i + 1) (plan.req_fanout.getD i 0).toNat
    ∧ (flow_offset plan.req_fanout i : Int) = (plan.req_fanout.take i).sum
    ∧ (((run_requests plan usleep_overhead_us envs c).1[i]).request.flow_req.length : Int)
        = plan.req_fanout.getD i 0
    ∧ ∀ f ∈ ((run_requests plan usleep_overhead_us envs c).1[i]).request.flow_req,
        1 ≤ f.flow_id ∧ (f.flow_id : Int) ≤ plan.flow_total_num
        ∧ plan.flow_req_id[f.flow_id - 1]? = some (i : Int)
        ∧ (∀ (c' : Client) (s j : Nat) (read_buf : List Nat) (t_flow t_req : timeval),
            u32_at read_buf 0 = f.flow_id →
            (listen_connection plan c' s j (ReadResult.ok read_buf) t_flow t_req).flow_stop_time
              = c'.flow_stop_time.set (f.flow_id - 1) t_flow
            ∧ (listen_connection plan c' s j (ReadResult.ok read_buf) t_flow t_req).req_stop_time
              = c'.req_stop_time.set i t_req) := by
  obtain ⟨p1, p2, p3, p4, p5, p6⟩ :=
    planned_blocks num_server req_total_num samples garbage plan hplan hns hreq hfan htot
  have hnn : ∀ x ∈ plan.req_fanout, 0 ≤ x := fun x hx => by have := p3 x hx; omega
  obtain ⟨g1, _, _, _⟩ := run_requests_loop_chain plan usleep_overhead_us envs
    plan.req_total_num.toNat 0 c 0 (run_requests plan usleep_overhead_us envs c).1 rfl
  have hper := run_requests_loop_request_ids plan usleep_overhead_us envs
    plan.req_total_num.toNat 0 c 0 0 (run_requests plan usleep_overhead_us envs c).1 rfl
    (by rw [hg]; rfl)
  have hlenlogs : (run_requests plan usleep_overhead_us envs c).1.length
      = plan.req_fanout.length := by rw [g1, p1, p2]
  -- the lengths of the earlier requests are their fanouts
  have hlens : ∀ r, r < i →
      ((((run_requests plan usleep_overhead_us envs c).1.map
          (fun lg => lg.request.flow_req.length)).getD r 0 : Nat) : Int)
        = plan.req_fanout.getD r 0 := by
    intro r hr
    have hr' : r < (run_requests plan usleep_overhead_us envs c).1.length := by omega
    have := (hper r hr').2 (hdisp r hr' (by omega))
    rw [List.getD_eq_getElem _ _ (by simpa using hr'), List.getElem_map]
    simpa using this
  have hoff : (((run_requests plan usleep_overhead_us envs c).1.take i).map
      (fun lg => lg.request.flow_req.length)).sum = flow_offset plan.req_fanout i := by
    rw [List.map_take]
    exact take_map_sum_eq _ _ i (by simp; omega) (by omega) hlens
  obtain ⟨hids, hlen⟩ := hper i hi
  have hlen' := hlen (hdisp i hi (le_refl i))
  simp only [Nat.zero_add] at hids hlen'
  rw [hoff] at hids
  have hlenNat : ((run_requests plan usleep_overhead_us envs c).1[i]).request.flow_req.length
      = (plan.req_fanout.getD i 0).toNat := by omega
  have hi2 : i < plan.req_fanout.length := by omega
  have hnext := flow_offset_succ plan.req_fanout i hi2
  have hle := flow_offset_le plan.req_fanout (i + 1)
  have hbound : flow_offset plan.req_fanout i + (plan.req_fanout.getD i 0).toNat
      < 2147483648 := by omega
  have hids' : ((run_requests plan usleep_overhead_us envs c).1[i]).request.flow_req.map
      Flow.flow_id
      = List.range' (flow_offset plan.req_fanout i + 1) (plan.req_fanout.getD i 0).toNat := by
    rw [hids, hlenNat]
    apply List.ext_getElem
    · simp
    · intro k h1 h2
      simp only [List.length_map, List.length_range'] at h1
      simp only [List.getElem_map, List.getElem_range']
      omega
  refine ⟨hids', flow_offset_cast plan.req_fanout hnn i, hlen', ?_⟩
  intro f hf
  have hmem : f.flow_id ∈ List.range' (flow_offset plan.req_fanout i + 1)
      (plan.req_fanout.getD i 0).toNat := by
    rw [← hids']; exact List.mem_map_of_mem _ hf
  rw [List.mem_range'_1] at hmem
  have hjlt : f.flow_id - 1 < (request_blocks plan.req_fanout 0).length := by
    rw [request_blocks_length]; omega
  have hidx := (request_blocks_index plan.req_fanout 0 (f.flow_id - 1) hjlt i hi2).mpr
    ⟨by omega, by omega⟩
  simp only [Nat.zero_add] at hidx
  have hget : plan.flow_req_id[f.flow_id - 1]? = some (i : Int) := by
    rw [p6, List.getElem?_eq_getElem hjlt, hidx]
  refine ⟨by omega, by omega, hget, ?_⟩
  intro c' s j read_buf t_flow t_req hbuf
  have hne : ¬ f.flow_id = 0 := by omega
  constructor
  · simp only [listen_connection, hbuf, if_neg hne]
  · simp only [listen_connection, hbuf, if_neg hne]
    exact stamp_req_stop_of_index plan _ _ i _ hget

/-- Witness of `C15_ids_of_dispatched_request`: in the run of `demo_plan3` (fanouts 2, 1,
3) in which all three requests are dispatched, the flows of request 2 carry the ids
4, 5, 6. -/
theorem C15_ids_of_dispatched_request_witness :
    ((run_requests demo_plan3 0 demo_envs3 demo_client3).1[2]).request.flow_req.map Flow.flow_id
      = List.range' (flow_offset demo_plan3.req_fanout 2 + 1)
          (demo_plan3.req_fanout.getD 2 0).toNat
    ∧ ((run_requests demo_plan3 0 demo_envs3 demo_client3).1[2]).request.flow_req.map
        Flow.flow_id = [4, 5, 6] :=
  ⟨(C15_ids_of_dispatched_request 2 3 demo_samples (fun _ => -7) demo_plan3 (by decide)
      (by decide) (by decide) (by decide) (by decide) 0 demo_envs3 demo_client3 (by decide) 2
      (by decide) (by decide)).1,
   by decide⟩

/-! ## C17: the divisors of the summary -/

/-- With at least one server, at least one request, fanouts of at least 1 and a total
that fits an `int`, both divisors of the summary are at least 1. -/
theorem summary_divisors_positive (num_server : Nat) (req_total_num : Int)
    (samples : Nat → Sample) (hns : 1 ≤ num_server) (hreq : 1 ≤ req_total_num)
    (hfan : ∀ i, i < req_total_num.toNat → 1 ≤ (samples i).fanout)
    (htot : ((List.range req_total_num.toNat).map (fun i => (samples i).fanout)).sum
      < 2147483648) :
    ∃ d1 d2, summary_divisors num_server req_total_num samples = some (d1, d2)
      ∧ 1 ≤ d1 ∧ 1 ≤ d2 := by
  obtain ⟨plan, hplan, _, _, hfo, htn, _, _⟩ :=
    set_req_variables_returns num_server req_total_num samples (fun _ => 0) hns hreq hfan htot
  have hnn : ∀ x ∈ (List.range req_total_num.toNat).map (fun i => (samples i).fanout),
      0 ≤ x := by
    intro x hx
    obtain ⟨i, hi, rfl⟩ := List.mem_map.mp hx
    have := hfan i (List.mem_range.mp hi)
    omega
  have hpos : 1 ≤ ((List.range req_total_num.toNat).map (fun i => (samples i).fanout)).sum := by
    have h0 : 0 < req_total_num.toNat := by omega
    exact le_trans (hfan 0 h0)
      (List.single_le_sum hnn _ (List.mem_map.mpr ⟨0, List.mem_range.mpr h0, rfl⟩))
  unfold set_req_variables at hplan
  rw [if_neg (by omega), if_neg (by omega)] at hplan
  simp only at hplan
  split at hplan
  · exact absurd hplan (by simp)
  · rename_i hft
    simp only [Option.some.injEq] at hplan
    have hft2 : plan.flow_total_num = (plan_requests num_server samples req_total_num.toNat 0
        { req_size := [], req_fanout := [], req_dscp := [], req_rate := [], req_sleep_us := [],
          req_server_flow_count := [], server_flow_count := List.replicate num_server 0,
          flow_total_num := 0 }).flow_total_num := by rw [← hplan]
    unfold summary_divisors
    rw [if_neg (by omega), if_neg (by omega)]
    simp only
    rw [if_neg (by omega)]
    exact ⟨_, _, rfl, hreq, by rw [← hft2, htn]; exact hpos⟩

/-- C17 (the code departs from it): `read_config` accepts `zero_reqs_config`, whose
`num_reqs` line asks for 0 requests, and leaves `req_total_num = 0`; no request is
planned, `flow_total_num` stays 0, and `set_req_variables` reaches its summary with both
divisors 0 (`req_interval_total/req_total_num`, `req_size_total/flow_total_num`), so it
does not return. -/
theorem C17_zero_requests_zero_divisors (samples : Nat → Sample) (garbage : Nat → Int) :
    read_config zero_reqs_config = Except.ok zero_reqs_globals
    ∧ zero_reqs_globals.num_server = 1 ∧ zero_reqs_globals.req_total_num = 0
    ∧ summary_divisors zero_reqs_globals.num_server zero_reqs_globals.req_total_num samples
        = some (0, 0)
    ∧ set_req_variables zero_reqs_globals.num_server zero_reqs_globals.req_total_num samples
        garbage = none
    ∧ configure_and_plan zero_reqs_config samples garbage = Except.ok none := by
  have h : read_config zero_reqs_config = Except.ok zero_reqs_globals := rfl
  refine ⟨h, rfl, rfl, ?_, ?_, ?_⟩
  · show summary_divisors 1 0 samples = some (0, 0)
    simp [summary_divisors, plan_requests]
  · show set_req_variables 1 0 samples garbage = none
    simp [set_req_variables]
  · unfold configure_and_plan
    rw [h]
    show Except.ok (set_req_variables 1 0 samples garbage) = Except.ok none
    simp [set_req_variables]

end IncastClient
